import Mathlib

/-!
# Pong: motion, collision detection and the per-frame resolution policy

A shallow embedding of `src/main.cpp`, in two layers.

* The exact layer (namespace `Pong`) embeds the C++ type `float` as the field of
  rationals `ℚ`: every arithmetic operation is exact.  It carries the
  properties that do not depend on rounding: comparisons of stored values,
  branch order, the frame policy, the score counters and the reachable
  velocities.
* The binary32 layer (namespace `Pong.F32`) embeds the same functions with
  every `float` operation rounded to IEEE 754 binary32, round to nearest, ties
  to even, with gradual underflow.  Values are the rationals that are binary32
  values; a value `x` is one when `F32.fl x = x`.  Overflow to infinity and NaN
  are outside the model.  It carries the properties whose truth depends on the
  rounded edges, thresholds and sums the program computes.

Further conventions.
* The integer constants of the source keep their integer type and are cast
  where the source promotes them to `float`.
* The score counters are C++ `int`s that are only ever incremented; they are
  embedded as unbounded integers (signed overflow is undefined in C++).
* Rendering, audio and event polling are not part of the model.  One iteration
  of the loop in `main` is the function `frame`, which receives the button
  flags left by the event polling and the measured `dt` as arguments.
-/

namespace Pong

/-! ## Constants and data model -/

def WINDOW_HEIGHT : Int := 720
def WINDOW_WIDTH : Int := 1280

/-- Indices of the four button flags. -/
inductive Buttons where
  | PaddleOneUp
  | PaddleOneDown
  | PaddleTwoUp
  | PaddleTwoDown
deriving DecidableEq, Repr

inductive collisionType where
  | None
  | Top
  | Middle
  | Bottom
  | Left
  | Right
deriving DecidableEq, Repr

def PADDLE_SPEED : ℚ := 1
def BALL_SPEED : ℚ := 65 / 100

structure Contact where
  type : collisionType
  penetration : ℚ
deriving DecidableEq, Repr

/-- Value-initialised contact, `Contact contact{}` in the source. -/
def Contact.zero : Contact := ⟨collisionType.None, 0⟩

structure vector2d where
  x : ℚ
  y : ℚ
deriving DecidableEq, Repr

namespace vector2d

/-- Source: `vector2d::operator+`. -/
def add (a rhs : vector2d) : vector2d := ⟨a.x + rhs.x, a.y + rhs.y⟩

/-- Source: `vector2d::operator+=` (the updated left operand is returned). -/
def addAssign (a rhs : vector2d) : vector2d := ⟨a.x + rhs.x, a.y + rhs.y⟩

/-- Source: `vector2d::operator*`. -/
def mul (a : vector2d) (rhs : ℚ) : vector2d := ⟨a.x * rhs, a.y * rhs⟩

end vector2d

def BALL_WIDTH : Int := 15
def BALL_HEIGHT : Int := 15

structure Ball where
  velocity : vector2d
  position : vector2d
deriving DecidableEq, Repr

def PADDLE_HEIGHT : Int := 100
def PADDLE_WIDTH : Int := 10

structure Paddle where
  position : vector2d
  velocity : vector2d
deriving DecidableEq, Repr

/-! ## Ball and paddle operations -/

namespace Ball

/-- Source: `Ball::CollideWithPaddle`. -/
def CollideWithPaddle (b : Ball) (contact : Contact) : Ball :=
  let position : vector2d := ⟨b.position.x + contact.penetration, b.position.y⟩
  let vx : ℚ := -b.velocity.x
  if contact.type = collisionType.Top then
    ⟨⟨vx, -(75 / 100) * BALL_SPEED⟩, position⟩
  else if contact.type = collisionType.Bottom then
    ⟨⟨vx, (75 / 100) * BALL_SPEED⟩, position⟩
  else
    ⟨⟨vx, b.velocity.y⟩, position⟩

/-- Source: `Ball::CollideWithWall`. -/
def CollideWithWall (b : Ball) (contact : Contact) : Ball :=
  if contact.type = collisionType.Top ∨ contact.type = collisionType.Bottom then
    ⟨⟨b.velocity.x, -b.velocity.y⟩, ⟨b.position.x, b.position.y + contact.penetration⟩⟩
  else if contact.type = collisionType.Left then
    ⟨⟨BALL_SPEED, (75 / 100) * BALL_SPEED⟩,
      ⟨(WINDOW_WIDTH : ℚ) / 2, (WINDOW_HEIGHT : ℚ) / 2⟩⟩
  else if contact.type = collisionType.Right then
    ⟨⟨-BALL_SPEED, (75 / 100) * BALL_SPEED⟩,
      ⟨(WINDOW_WIDTH : ℚ) / 2, (WINDOW_HEIGHT : ℚ) / 2⟩⟩
  else
    b

/-- Source: `Ball::update`. -/
def update (b : Ball) (dt : ℚ) : Ball :=
  ⟨b.velocity, b.position.addAssign (b.velocity.mul dt)⟩

end Ball

namespace Paddle

/-- Source: `Paddle::update`. -/
def update (p : Paddle) (dt : ℚ) : Paddle :=
  let position := p.position.addAssign (p.velocity.mul dt)
  if position.y < 0 then
    ⟨⟨position.x, 0⟩, p.velocity⟩
  else if position.y > ((WINDOW_HEIGHT - PADDLE_HEIGHT : Int) : ℚ) then
    ⟨⟨position.x, ((WINDOW_HEIGHT - PADDLE_HEIGHT : Int) : ℚ)⟩, p.velocity⟩
  else
    ⟨position, p.velocity⟩

end Paddle

/-! ## Collision detection -/

/-- Source: `checkPaddleCollision`. -/
def checkPaddleCollision (ball : Ball) (paddle : Paddle) : Contact :=
  let ballLeft := ball.position.x
  let ballRight := ball.position.x + (BALL_WIDTH : ℚ)
  let ballTop := ball.position.y
  let ballBottom := ball.position.y + (BALL_HEIGHT : ℚ)
  let paddleLeft := paddle.position.x
  let paddleRight := paddle.position.x + (PADDLE_WIDTH : ℚ)
  let paddleTop := paddle.position.y
  let paddleBottom := paddle.position.y + (PADDLE_HEIGHT : ℚ)
  if ballLeft ≥ paddleRight then Contact.zero
  else if ballRight ≤ paddleLeft then Contact.zero
  else if ballTop ≥ paddleBottom then Contact.zero
  else if ballBottom ≤ paddleTop then Contact.zero
  else
    let paddleRangeUpper := paddleBottom - (2 * (PADDLE_HEIGHT : ℚ) / 3)
    let paddleRangeMiddle := paddleBottom - ((PADDLE_HEIGHT : ℚ) / 3)
    let penetration : ℚ :=
      if ball.velocity.x < 0 then paddleRight - ballLeft
      else if ball.velocity.x > 0 then paddleLeft - ballRight
      else 0
    if ballBottom > paddleTop ∧ ballBottom < paddleRangeUpper then
      ⟨collisionType.Top, penetration⟩
    else if ballBottom > paddleRangeUpper ∧ ballBottom < paddleRangeMiddle then
      ⟨collisionType.Middle, penetration⟩
    else
      ⟨collisionType.Bottom, penetration⟩

/-- Source: `checkWallCollision`. -/
def checkWallCollision (ball : Ball) : Contact :=
  let ballLeft := ball.position.x
  let ballRight := ball.position.x + (BALL_WIDTH : ℚ)
  let ballTop := ball.position.y
  let ballBottom := ball.position.y + (BALL_HEIGHT : ℚ)
  if ballLeft < 0 then ⟨collisionType.Left, 0⟩
  else if ballRight > (WINDOW_WIDTH : ℚ) then ⟨collisionType.Right, 0⟩
  else if ballTop < 0 then ⟨collisionType.Top, -ballTop⟩
  else if ballBottom > (WINDOW_HEIGHT : ℚ) then
    ⟨collisionType.Bottom, (WINDOW_HEIGHT : ℚ) - ballBottom⟩
  else Contact.zero

/-! ## The game loop -/

/-- The state owned by the loop in `main`: the ball, both paddles and the two
score counters. -/
structure GameState where
  ball : Ball
  paddleOne : Paddle
  paddleTwo : Paddle
  playerOneScore : Int
  playerTwoScore : Int
deriving DecidableEq, Repr

/-- Source: `main`, the objects constructed before the loop starts. -/
def initialState : GameState :=
  GameState.mk
    (Ball.mk
      ⟨BALL_SPEED, 0⟩
      ⟨(WINDOW_WIDTH : ℚ) / 2 - (BALL_WIDTH : ℚ) / 2,
        (WINDOW_HEIGHT : ℚ) / 2 - (BALL_HEIGHT : ℚ) / 2⟩)
    (Paddle.mk ⟨50, (WINDOW_HEIGHT : ℚ) / 2 - (PADDLE_HEIGHT : ℚ) / 2⟩ ⟨0, 0⟩)
    (Paddle.mk ⟨(WINDOW_WIDTH : ℚ) - 50, (WINDOW_HEIGHT : ℚ) / 2 - (PADDLE_HEIGHT : ℚ) / 2⟩
      ⟨0, 0⟩)
    0
    0

/-- Source: `main`, from the paddle velocity assignments to `ball.update(dt)`:
each paddle's `velocity.y` is set from its two button flags, then both paddles
and the ball are integrated. -/
def integrate (s : GameState) (buttons : Buttons → Bool) (dt : ℚ) : GameState :=
  let paddleOne : Paddle :=
    if buttons Buttons.PaddleOneUp then
      ⟨s.paddleOne.position, ⟨s.paddleOne.velocity.x, -PADDLE_SPEED⟩⟩
    else if buttons Buttons.PaddleOneDown then
      ⟨s.paddleOne.position, ⟨s.paddleOne.velocity.x, PADDLE_SPEED⟩⟩
    else
      ⟨s.paddleOne.position, ⟨s.paddleOne.velocity.x, 0⟩⟩
  let paddleTwo : Paddle :=
    if buttons Buttons.PaddleTwoUp then
      ⟨s.paddleTwo.position, ⟨s.paddleTwo.velocity.x, -PADDLE_SPEED⟩⟩
    else if buttons Buttons.PaddleTwoDown then
      ⟨s.paddleTwo.position, ⟨s.paddleTwo.velocity.x, PADDLE_SPEED⟩⟩
    else
      ⟨s.paddleTwo.position, ⟨s.paddleTwo.velocity.x, 0⟩⟩
  GameState.mk (s.ball.update dt) (paddleOne.update dt) (paddleTwo.update dt)
    s.playerOneScore s.playerTwoScore

/-- Source: `main`, the block under `//check collisions`: paddle one is tested
first, paddle two only when paddle one reports nothing, the walls only when
neither paddle reports anything; a wall contact of type `Left` or `Right`
increments a score counter. -/
def resolveCollisions (s : GameState) : GameState :=
  let contact := checkPaddleCollision s.ball s.paddleOne
  if contact.type ≠ collisionType.None then
    GameState.mk (s.ball.CollideWithPaddle contact) s.paddleOne s.paddleTwo
      s.playerOneScore s.playerTwoScore
  else
    let contact := checkPaddleCollision s.ball s.paddleTwo
    if contact.type ≠ collisionType.None then
      GameState.mk (s.ball.CollideWithPaddle contact) s.paddleOne s.paddleTwo
        s.playerOneScore s.playerTwoScore
    else
      let contact := checkWallCollision s.ball
      if contact.type ≠ collisionType.None then
        let ball := s.ball.CollideWithWall contact
        if contact.type = collisionType.Left then
          GameState.mk ball s.paddleOne s.paddleTwo s.playerOneScore (s.playerTwoScore + 1)
        else if contact.type = collisionType.Right then
          GameState.mk ball s.paddleOne s.paddleTwo (s.playerOneScore + 1) s.playerTwoScore
        else
          GameState.mk ball s.paddleOne s.paddleTwo s.playerOneScore s.playerTwoScore
      else
        s

/-- One iteration of the loop in `main`: integration followed by collision
resolution. -/
def frame (s : GameState) (buttons : Buttons → Bool) (dt : ℚ) : GameState :=
  resolveCollisions (integrate s buttons dt)

/-- Any number of iterations of the loop, one pair of button flags and `dt`
per iteration. -/
def run (s : GameState) : List ((Buttons → Bool) × ℚ) → GameState
  | [] => s
  | input :: rest => run (frame s input.1 input.2) rest

/-! ## Binary32 arithmetic and the rounded layer -/

namespace F32

/-- Exponent of the binade of `x`: the integer `e` with `2^e <= |x| < 2^(e+1)`,
clamped below at `-126`, the exponent of the subnormal range.  At `x = 0` the
value is immaterial: zero rounds to zero on every grid. -/
def expo (x : ℚ) : ℤ := max (Int.log 2 |x|) (-126)

/-- Nearest integer, ties to the even neighbour. -/
def roundEven (t : ℚ) : ℤ :=
  if t - ⌊t⌋ < 1 / 2 then ⌊t⌋
  else if t - ⌊t⌋ > 1 / 2 then ⌊t⌋ + 1
  else if ⌊t⌋ % 2 = 0 then ⌊t⌋
  else ⌊t⌋ + 1

/-- Rounding to binary32: the nearest multiple of `2^(expo x - 23)`, the spacing
of binary32 values in the binade of `x` (24 significant bits), ties to even. -/
def fl (x : ℚ) : ℚ := (roundEven (x / 2 ^ (expo x - 23)) : ℚ) * 2 ^ (expo x - 23)

/-- Source: `float` addition. -/
def add (a b : ℚ) : ℚ := fl (a + b)

/-- Source: `float` subtraction. -/
def sub (a b : ℚ) : ℚ := fl (a - b)

/-- Source: `float` multiplication. -/
def mul (a b : ℚ) : ℚ := fl (a * b)

/-- Source: `float` division. -/
def div (a b : ℚ) : ℚ := fl (a / b)

/-- Source: `const float BALL_SPEED = 0.65f`, the binary32 value nearest to
`0.65`. -/
def BALL_SPEED : ℚ := fl (65 / 100)

namespace Ball

/-- Source: `Ball::CollideWithPaddle`, with binary32 arithmetic. -/
def CollideWithPaddle (b : Ball) (contact : Contact) : Ball :=
  let position : vector2d := ⟨add b.position.x contact.penetration, b.position.y⟩
  let vx : ℚ := -b.velocity.x
  if contact.type = collisionType.Top then
    ⟨⟨vx, mul (-(75 / 100)) BALL_SPEED⟩, position⟩
  else if contact.type = collisionType.Bottom then
    ⟨⟨vx, mul (75 / 100) BALL_SPEED⟩, position⟩
  else
    ⟨⟨vx, b.velocity.y⟩, position⟩

/-- Source: `Ball::CollideWithWall`, with binary32 arithmetic.  In the `Right`
branch the source multiplies in `double` and narrows the product to `float`;
the `double` product of `0.75` and a binary32 value is exact, so the stored
value is the rounding of the exact product. -/
def CollideWithWall (b : Ball) (contact : Contact) : Ball :=
  if contact.type = collisionType.Top ∨ contact.type = collisionType.Bottom then
    ⟨⟨b.velocity.x, -b.velocity.y⟩, ⟨b.position.x, add b.position.y contact.penetration⟩⟩
  else if contact.type = collisionType.Left then
    ⟨⟨BALL_SPEED, mul (75 / 100) BALL_SPEED⟩,
      ⟨div (WINDOW_WIDTH : ℚ) 2, div (WINDOW_HEIGHT : ℚ) 2⟩⟩
  else if contact.type = collisionType.Right then
    ⟨⟨-BALL_SPEED, fl ((75 / 100) * BALL_SPEED)⟩,
      ⟨div (WINDOW_WIDTH : ℚ) 2, div (WINDOW_HEIGHT : ℚ) 2⟩⟩
  else
    b

/-- Source: `Ball::update`, with binary32 arithmetic: each product and each
sum is rounded. -/
def update (b : Ball) (dt : ℚ) : Ball :=
  ⟨b.velocity,
    ⟨add b.position.x (mul b.velocity.x dt), add b.position.y (mul b.velocity.y dt)⟩⟩

end Ball

/-- Source: `checkPaddleCollision`, with binary32 arithmetic: the edges of the
two boxes, the two zone thresholds and the penetration are rounded. -/
def checkPaddleCollision (ball : Ball) (paddle : Paddle) : Contact :=
  let ballLeft := ball.position.x
  let ballRight := add ball.position.x (BALL_WIDTH : ℚ)
  let ballTop := ball.position.y
  let ballBottom := add ball.position.y (BALL_HEIGHT : ℚ)
  let paddleLeft := paddle.position.x
  let paddleRight := add paddle.position.x (PADDLE_WIDTH : ℚ)
  let paddleTop := paddle.position.y
  let paddleBottom := add paddle.position.y (PADDLE_HEIGHT : ℚ)
  if ballLeft ≥ paddleRight then Contact.zero
  else if ballRight ≤ paddleLeft then Contact.zero
  else if ballTop ≥ paddleBottom then Contact.zero
  else if ballBottom ≤ paddleTop then Contact.zero
  else
    let paddleRangeUpper := sub paddleBottom (div (mul 2 (PADDLE_HEIGHT : ℚ)) 3)
    let paddleRangeMiddle := sub paddleBottom (div (PADDLE_HEIGHT : ℚ) 3)
    let penetration : ℚ :=
      if ball.velocity.x < 0 then sub paddleRight ballLeft
      else if ball.velocity.x > 0 then sub paddleLeft ballRight
      else 0
    if ballBottom > paddleTop ∧ ballBottom < paddleRangeUpper then
      ⟨collisionType.Top, penetration⟩
    else if ballBottom > paddleRangeUpper ∧ ballBottom < paddleRangeMiddle then
      ⟨collisionType.Middle, penetration⟩
    else
      ⟨collisionType.Bottom, penetration⟩

/-- Source: `checkWallCollision`, with binary32 arithmetic. -/
def checkWallCollision (ball : Ball) : Contact :=
  let ballLeft := ball.position.x
  let ballRight := add ball.position.x (BALL_WIDTH : ℚ)
  let ballTop := ball.position.y
  let ballBottom := add ball.position.y (BALL_HEIGHT : ℚ)
  if ballLeft < 0 then ⟨collisionType.Left, 0⟩
  else if ballRight > (WINDOW_WIDTH : ℚ) then ⟨collisionType.Right, 0⟩
  else if ballTop < 0 then ⟨collisionType.Top, -ballTop⟩
  else if ballBottom > (WINDOW_HEIGHT : ℚ) then
    ⟨collisionType.Bottom, sub (WINDOW_HEIGHT : ℚ) ballBottom⟩
  else Contact.zero

end F32

/-! ## Claim C1 -/

/-- C1: `Paddle.update` keeps the paddle on screen.  For every paddle, velocity
and `dt`, the updated `position.y` lies in `[0, 620]`, and whenever
`position.y + velocity.y * dt` already lies in that interval the updated
`position.y` is exactly that value. -/
theorem paddle_update_clamped (p : Paddle) (dt : ℚ) :
    (0 ≤ (p.update dt).position.y ∧ (p.update dt).position.y ≤ 620) ∧
    ((0 ≤ p.position.y + p.velocity.y * dt ∧ p.position.y + p.velocity.y * dt ≤ 620) →
      (p.update dt).position.y = p.position.y + p.velocity.y * dt) := by
  simp only [Paddle.update, vector2d.addAssign, vector2d.mul, WINDOW_HEIGHT, PADDLE_HEIGHT]
  norm_num
  refine ⟨⟨?_, ?_⟩, ?_⟩
  · split_ifs with h0 h1
    · exact le_refl _
    · norm_num
    · exact not_lt.mp h0
  · split_ifs with h0 h1
    · norm_num
    · exact le_refl _
    · exact not_lt.mp h1
  · intro h0 h1
    rw [if_neg (not_lt.mpr h0), if_neg (not_lt.mpr h1)]


/-- Witness for C1: a paddle at `y = 300` moving down at speed `1` for
`dt = 100` ends at `y = 400`, its unclamped target. -/
theorem paddle_update_clamped_witness :
    (Paddle.mk ⟨50, 300⟩ ⟨0, 1⟩).update 100 = Paddle.mk ⟨50, 400⟩ ⟨0, 1⟩ ∧
    ((Paddle.mk ⟨50, 300⟩ ⟨0, 1⟩).update 100).position.y = 300 + 1 * 100 :=
  ⟨by simp [Paddle.update, vector2d.addAssign, vector2d.mul, WINDOW_HEIGHT, PADDLE_HEIGHT]
      norm_num,
   (paddle_update_clamped (Paddle.mk ⟨50, 300⟩ ⟨0, 1⟩) 100).2
      ⟨by norm_num, by norm_num⟩⟩

/-! ## Claim C2 -/

/-- Scenario A as the code runs it.  Starting from a ball at `(632.5, 352.5)`
with velocity `(0.65, 0)`, after `Ball.update(1000)` neither paddle (paddle one
at `x = 50`, paddle two at `x = 1230`, any `y`) reports a contact, the wall
check reports `Right`, and the resolution leaves the ball at `(640, 360)` with
velocity `(-0.65, 0.4875)`, player one's score increased by one and player
two's score unchanged. -/
theorem scenarioA_resolution (y1 y2 : ℚ) (v1 v2 : vector2d) (s1 s2 : Int) :
    checkPaddleCollision ((Ball.mk ⟨65 / 100, 0⟩ ⟨1265 / 2, 705 / 2⟩).update 1000)
        (Paddle.mk ⟨50, y1⟩ v1) = ⟨collisionType.None, 0⟩ ∧
    checkPaddleCollision ((Ball.mk ⟨65 / 100, 0⟩ ⟨1265 / 2, 705 / 2⟩).update 1000)
        (Paddle.mk ⟨1230, y2⟩ v2) = ⟨collisionType.None, 0⟩ ∧
    (checkWallCollision ((Ball.mk ⟨65 / 100, 0⟩ ⟨1265 / 2, 705 / 2⟩).update 1000)).type
        = collisionType.Right ∧
    resolveCollisions
        (GameState.mk ((Ball.mk ⟨65 / 100, 0⟩ ⟨1265 / 2, 705 / 2⟩).update 1000)
          (Paddle.mk ⟨50, y1⟩ v1) (Paddle.mk ⟨1230, y2⟩ v2) s1 s2)
      = GameState.mk (Ball.mk ⟨-(65 / 100), 4875 / 10000⟩ ⟨640, 360⟩)
          (Paddle.mk ⟨50, y1⟩ v1) (Paddle.mk ⟨1230, y2⟩ v2) (s1 + 1) s2 := by
  have hb : (Ball.mk ⟨65 / 100, 0⟩ ⟨1265 / 2, 705 / 2⟩).update 1000
      = Ball.mk ⟨65 / 100, 0⟩ ⟨2565 / 2, 705 / 2⟩ := by
    simp [Ball.update, vector2d.addAssign, vector2d.mul]
    norm_num
  rw [hb]
  have h1 : checkPaddleCollision (Ball.mk ⟨65 / 100, 0⟩ ⟨2565 / 2, 705 / 2⟩)
      (Paddle.mk ⟨50, y1⟩ v1) = ⟨collisionType.None, 0⟩ := by
    simp only [checkPaddleCollision, Contact.zero, PADDLE_WIDTH]
    rw [if_pos (by norm_num)]
  have h2 : checkPaddleCollision (Ball.mk ⟨65 / 100, 0⟩ ⟨2565 / 2, 705 / 2⟩)
      (Paddle.mk ⟨1230, y2⟩ v2) = ⟨collisionType.None, 0⟩ := by
    simp only [checkPaddleCollision, Contact.zero, PADDLE_WIDTH]
    rw [if_pos (by norm_num)]
  have h3 : checkWallCollision (Ball.mk ⟨65 / 100, 0⟩ ⟨2565 / 2, 705 / 2⟩)
      = ⟨collisionType.Right, 0⟩ := by
    simp only [checkWallCollision, BALL_WIDTH, WINDOW_WIDTH]
    rw [if_neg (by norm_num), if_pos (by norm_num)]
  refine ⟨h1, h2, by rw [h3], ?_⟩
  simp only [resolveCollisions, h1, h2, h3]
  simp [Ball.CollideWithWall, BALL_SPEED, WINDOW_WIDTH, WINDOW_HEIGHT]
  norm_num

/-- C2: the code at the failing input of scenario A.  The ball created by
`main` at `(640 - 7.5, 360 - 7.5) = (632.5, 352.5)` with velocity `(0.65, 0)`,
after `Ball.update(1000)` and the collision block (paddles at `(50, 310)` and
`(1230, 310)`, scores `0 : 0`), is left by `CollideWithWall` at `(640, 360)`,
not at `(632.5, 352.5)` where the claim and the creation path put a centred
ball; velocity `(-0.65, 0.4875)` and the scores `1 : 0` are as claimed. -/
theorem scenarioA_reset_position :
    (Ball.mk ⟨65 / 100, 0⟩ ⟨1265 / 2, 705 / 2⟩ = initialState.ball) ∧
    resolveCollisions
        (GameState.mk ((Ball.mk ⟨65 / 100, 0⟩ ⟨1265 / 2, 705 / 2⟩).update 1000)
          (Paddle.mk ⟨50, 310⟩ ⟨0, 0⟩) (Paddle.mk ⟨1230, 310⟩ ⟨0, 0⟩) 0 0)
      = GameState.mk (Ball.mk ⟨-(65 / 100), 4875 / 10000⟩ ⟨640, 360⟩)
          (Paddle.mk ⟨50, 310⟩ ⟨0, 0⟩) (Paddle.mk ⟨1230, 310⟩ ⟨0, 0⟩) 1 0 ∧
    (resolveCollisions
        (GameState.mk ((Ball.mk ⟨65 / 100, 0⟩ ⟨1265 / 2, 705 / 2⟩).update 1000)
          (Paddle.mk ⟨50, 310⟩ ⟨0, 0⟩) (Paddle.mk ⟨1230, 310⟩ ⟨0, 0⟩) 0 0)).ball.position
      ≠ ⟨1265 / 2, 705 / 2⟩ := by
  have h := (scenarioA_resolution 310 310 ⟨0, 0⟩ ⟨0, 0⟩ 0 0).2.2.2
  have h0 : ((0 : Int) + 1) = 1 := by norm_num
  rw [h0] at h
  refine ⟨?_, h, ?_⟩
  · simp only [initialState, BALL_SPEED, WINDOW_WIDTH, WINDOW_HEIGHT, BALL_WIDTH, BALL_HEIGHT]
    norm_num
  · rw [h]
    intro hc
    have hx := congrArg vector2d.x hc
    norm_num at hx

/-! ## Shared facts about `checkPaddleCollision` -/

/-- When the two boxes overlap on both axes, `checkPaddleCollision` returns the
zone of the paddle selected by `ballBottom` together with the penetration
selected by the sign of the ball's horizontal velocity. -/
theorem checkPaddleCollision_overlap (ball : Ball) (paddle : Paddle)
    (hx1 : ball.position.x < paddle.position.x + 10)
    (hx2 : paddle.position.x < ball.position.x + 15)
    (hy1 : ball.position.y < paddle.position.y + 100)
    (hy2 : paddle.position.y < ball.position.y + 15) :
    checkPaddleCollision ball paddle =
      ⟨if ball.position.y + 15 < paddle.position.y + 100 - 2 * 100 / 3 then collisionType.Top
        else if paddle.position.y + 100 - 2 * 100 / 3 < ball.position.y + 15 ∧
            ball.position.y + 15 < paddle.position.y + 100 - 100 / 3 then collisionType.Middle
        else collisionType.Bottom,
       if ball.velocity.x < 0 then paddle.position.x + 10 - ball.position.x
        else if ball.velocity.x > 0 then paddle.position.x - (ball.position.x + 15)
        else 0⟩ := by
  simp only [checkPaddleCollision, BALL_WIDTH, BALL_HEIGHT, PADDLE_WIDTH, PADDLE_HEIGHT]
  norm_num only [Int.cast_ofNat, ge_iff_le, gt_iff_lt]
  rw [if_neg (not_le.mpr hx1), if_neg (not_le.mpr hx2), if_neg (not_le.mpr hy1),
    if_neg (not_le.mpr hy2)]
  simp only [hy2, true_and]
  split_ifs <;> rfl

/-- A ball whose left edge is at or beyond the paddle's right edge is rejected
by the first test of `checkPaddleCollision`. -/
theorem checkPaddleCollision_right_of (ball : Ball) (paddle : Paddle)
    (h : paddle.position.x + 10 ≤ ball.position.x) :
    checkPaddleCollision ball paddle = ⟨collisionType.None, 0⟩ := by
  simp only [checkPaddleCollision, PADDLE_WIDTH, Contact.zero]
  norm_num only [Int.cast_ofNat, ge_iff_le]
  rw [if_pos h]

/-- A ball whose right edge is at or before the paddle's left edge is rejected
by the second test of `checkPaddleCollision`. -/
theorem checkPaddleCollision_left_of (ball : Ball) (paddle : Paddle)
    (h : ball.position.x + 15 ≤ paddle.position.x) :
    checkPaddleCollision ball paddle = ⟨collisionType.None, 0⟩ := by
  simp only [checkPaddleCollision, PADDLE_WIDTH, BALL_WIDTH, Contact.zero]
  norm_num only [Int.cast_ofNat, ge_iff_le]
  rw [if_pos h]
  split_ifs <;> rfl

/-- The position written by `CollideWithPaddle`: only `x` moves, by the
penetration. -/
theorem CollideWithPaddle_position (b : Ball) (c : Contact) :
    (b.CollideWithPaddle c).position = ⟨b.position.x + c.penetration, b.position.y⟩ := by
  simp only [Ball.CollideWithPaddle]
  split_ifs <;> rfl

/-- The horizontal velocity written by `CollideWithPaddle` is the negation of
the previous one. -/
theorem CollideWithPaddle_velocity_x (b : Ball) (c : Contact) :
    (b.CollideWithPaddle c).velocity.x = -b.velocity.x := by
  simp only [Ball.CollideWithPaddle]
  split_ifs <;> rfl

/-- The vertical velocity written by `CollideWithPaddle` is one of the two
angled returns or the previous one. -/
theorem CollideWithPaddle_velocity_y (b : Ball) (c : Contact) :
    (b.CollideWithPaddle c).velocity.y = -(75 / 100) * BALL_SPEED ∨
    (b.CollideWithPaddle c).velocity.y = (75 / 100) * BALL_SPEED ∨
    (b.CollideWithPaddle c).velocity.y = b.velocity.y := by
  simp only [Ball.CollideWithPaddle]
  split_ifs
  · exact Or.inl rfl
  · exact Or.inr (Or.inl rfl)
  · exact Or.inr (Or.inr rfl)

/-! ## Claim C3 -/

/-- C3: `checkPaddleCollision` rejects separated boxes.  If the ball's box and
the paddle's box fail to overlap on at least one axis (touching edges count as
separated), the result is `Contact{None, 0}`, whatever the ball's velocity. -/
theorem checkPaddleCollision_separated (ball : Ball) (paddle : Paddle)
    (h : ball.position.x ≥ paddle.position.x + 10 ∨
         ball.position.x + 15 ≤ paddle.position.x ∨
         ball.position.y ≥ paddle.position.y + 100 ∨
         ball.position.y + 15 ≤ paddle.position.y) :
    checkPaddleCollision ball paddle = ⟨collisionType.None, 0⟩ := by
  simp only [checkPaddleCollision, BALL_WIDTH, BALL_HEIGHT, PADDLE_WIDTH, PADDLE_HEIGHT,
    Contact.zero]
  norm_num only [Int.cast_ofNat, ge_iff_le, gt_iff_lt]
  by_cases c1 : paddle.position.x + 10 ≤ ball.position.x
  · rw [if_pos c1]
  rw [if_neg c1]
  by_cases c2 : ball.position.x + 15 ≤ paddle.position.x
  · rw [if_pos c2]
  rw [if_neg c2]
  by_cases c3 : paddle.position.y + 100 ≤ ball.position.y
  · rw [if_pos c3]
  rw [if_neg c3]
  by_cases c4 : ball.position.y + 15 ≤ paddle.position.y
  · rw [if_pos c4]
  exfalso
  rcases h with h | h | h | h
  · exact c1 h
  · exact c2 h
  · exact c3 h
  · exact c4 h

/-- Witness for C3: a ball whose left edge touches the right edge of the paddle
(`ballLeft = paddleRight = 60`) is not in contact. -/
theorem checkPaddleCollision_separated_witness :
    checkPaddleCollision (Ball.mk ⟨-(65 / 100), 0⟩ ⟨60, 330⟩) (Paddle.mk ⟨50, 310⟩ ⟨0, 0⟩)
      = ⟨collisionType.None, 0⟩ :=
  checkPaddleCollision_separated (Ball.mk ⟨-(65 / 100), 0⟩ ⟨60, 330⟩)
    (Paddle.mk ⟨50, 310⟩ ⟨0, 0⟩) (Or.inl (by norm_num))

/-! ## Claim C7 -/

/-- C7: `checkWallCollision` is the fixed-priority cascade: `Left` (with
penetration 0) if `ballLeft < 0`; else `Right` (with penetration 0) if
`ballRight > 1280`; else `Top` with penetration `-ballTop` if `ballTop < 0`;
else `Bottom` with penetration `720 - ballBottom` if `ballBottom > 720`; else
`Contact{None, 0}`.  The type is `None` exactly when the ball's box lies
within the playfield. -/
theorem checkWallCollision_cascade (ball : Ball) :
    checkWallCollision ball =
      (if ball.position.x < 0 then ⟨collisionType.Left, 0⟩
        else if ball.position.x + 15 > 1280 then ⟨collisionType.Right, 0⟩
        else if ball.position.y < 0 then ⟨collisionType.Top, -ball.position.y⟩
        else if ball.position.y + 15 > 720 then
          ⟨collisionType.Bottom, 720 - (ball.position.y + 15)⟩
        else ⟨collisionType.None, 0⟩) ∧
    ((checkWallCollision ball).type = collisionType.None ↔
      (0 ≤ ball.position.x ∧ ball.position.x + 15 ≤ 1280 ∧
        0 ≤ ball.position.y ∧ ball.position.y + 15 ≤ 720)) := by
  have h : checkWallCollision ball =
      (if ball.position.x < 0 then ⟨collisionType.Left, 0⟩
        else if ball.position.x + 15 > 1280 then ⟨collisionType.Right, 0⟩
        else if ball.position.y < 0 then ⟨collisionType.Top, -ball.position.y⟩
        else if ball.position.y + 15 > 720 then
          ⟨collisionType.Bottom, 720 - (ball.position.y + 15)⟩
        else ⟨collisionType.None, 0⟩) := by
    simp only [checkWallCollision, BALL_WIDTH, BALL_HEIGHT, WINDOW_WIDTH, WINDOW_HEIGHT,
      Contact.zero]
    norm_num only [Int.cast_ofNat, gt_iff_lt]
  refine ⟨h, ?_⟩
  rw [h]
  constructor
  · intro ht
    split_ifs at ht with c1 c2 c3 c4
    exact ⟨not_lt.mp c1, not_lt.mp c2, not_lt.mp c3, not_lt.mp c4⟩
  · rintro ⟨h1, h2, h3, h4⟩
    rw [if_neg (not_lt.mpr h1), if_neg (not_lt.mpr h2), if_neg (not_lt.mpr h3),
      if_neg (not_lt.mpr h4)]

/-! ## Shared facts about the frame step -/

/-- Integration does not touch the score counters. -/
theorem integrate_scores (s : GameState) (buttons : Buttons → Bool) (dt : ℚ) :
    (integrate s buttons dt).playerOneScore = s.playerOneScore ∧
    (integrate s buttons dt).playerTwoScore = s.playerTwoScore :=
  ⟨rfl, rfl⟩

/-- Integration leaves the ball's velocity unchanged. -/
theorem integrate_ball_velocity (s : GameState) (buttons : Buttons → Bool) (dt : ℚ) :
    (integrate s buttons dt).ball.velocity = s.ball.velocity :=
  rfl

/-- Resolution when paddle one reports a contact. -/
theorem resolveCollisions_paddleOne (s : GameState)
    (h1 : (checkPaddleCollision s.ball s.paddleOne).type ≠ collisionType.None) :
    resolveCollisions s =
      GameState.mk (s.ball.CollideWithPaddle (checkPaddleCollision s.ball s.paddleOne))
        s.paddleOne s.paddleTwo s.playerOneScore s.playerTwoScore := by
  simp only [resolveCollisions]
  rw [if_pos h1]

/-- Resolution when paddle one reports nothing and paddle two reports a
contact. -/
theorem resolveCollisions_paddleTwo (s : GameState)
    (h1 : (checkPaddleCollision s.ball s.paddleOne).type = collisionType.None)
    (h2 : (checkPaddleCollision s.ball s.paddleTwo).type ≠ collisionType.None) :
    resolveCollisions s =
      GameState.mk (s.ball.CollideWithPaddle (checkPaddleCollision s.ball s.paddleTwo))
        s.paddleOne s.paddleTwo s.playerOneScore s.playerTwoScore := by
  simp only [resolveCollisions]
  rw [if_neg (not_not.mpr h1), if_pos h2]

/-- Resolution when neither paddle reports a contact: the wall contact is
applied and the score counters follow its type. -/
theorem resolveCollisions_wall (s : GameState)
    (h1 : (checkPaddleCollision s.ball s.paddleOne).type = collisionType.None)
    (h2 : (checkPaddleCollision s.ball s.paddleTwo).type = collisionType.None) :
    resolveCollisions s =
      if (checkWallCollision s.ball).type = collisionType.None then s
      else
        GameState.mk (s.ball.CollideWithWall (checkWallCollision s.ball))
          s.paddleOne s.paddleTwo
          (if (checkWallCollision s.ball).type = collisionType.Right
            then s.playerOneScore + 1 else s.playerOneScore)
          (if (checkWallCollision s.ball).type = collisionType.Left
            then s.playerTwoScore + 1 else s.playerTwoScore) := by
  simp only [resolveCollisions]
  rw [if_neg (not_not.mpr h1), if_neg (not_not.mpr h2)]
  by_cases hw : (checkWallCollision s.ball).type = collisionType.None
  · rw [if_neg (not_not.mpr hw), if_pos hw]
  · rw [if_pos hw, if_neg hw]
    by_cases hl : (checkWallCollision s.ball).type = collisionType.Left
    · have hr : (checkWallCollision s.ball).type ≠ collisionType.Right := by
        rw [hl]
        exact fun e => collisionType.noConfusion e
      rw [if_pos hl, if_pos hl, if_neg hr]
    · rw [if_neg hl, if_neg hl]
      by_cases hr : (checkWallCollision s.ball).type = collisionType.Right
      · rw [if_pos hr, if_pos hr]
      · rw [if_neg hr, if_neg hr]

/-- The ball after resolution, as a priority cascade over the three checks. -/
theorem resolveCollisions_ball (s : GameState) :
    (resolveCollisions s).ball =
      if (checkPaddleCollision s.ball s.paddleOne).type ≠ collisionType.None then
        s.ball.CollideWithPaddle (checkPaddleCollision s.ball s.paddleOne)
      else if (checkPaddleCollision s.ball s.paddleTwo).type ≠ collisionType.None then
        s.ball.CollideWithPaddle (checkPaddleCollision s.ball s.paddleTwo)
      else if (checkWallCollision s.ball).type ≠ collisionType.None then
        s.ball.CollideWithWall (checkWallCollision s.ball)
      else s.ball := by
  by_cases h1 : (checkPaddleCollision s.ball s.paddleOne).type = collisionType.None
  · by_cases h2 : (checkPaddleCollision s.ball s.paddleTwo).type = collisionType.None
    · rw [resolveCollisions_wall s h1 h2, if_neg (not_not.mpr h1), if_neg (not_not.mpr h2)]
      by_cases hw : (checkWallCollision s.ball).type = collisionType.None
      · rw [if_pos hw, if_neg (not_not.mpr hw)]
      · rw [if_neg hw, if_pos hw]
    · rw [resolveCollisions_paddleTwo s h1 h2, if_neg (not_not.mpr h1), if_pos h2]
  · rw [resolveCollisions_paddleOne s h1, if_pos h1]

/-- The horizontal velocity written by `CollideWithWall` is the previous one
or one of the two serve velocities. -/
theorem CollideWithWall_velocity_x (b : Ball) (c : Contact) :
    (b.CollideWithWall c).velocity.x = b.velocity.x ∨
    (b.CollideWithWall c).velocity.x = BALL_SPEED ∨
    (b.CollideWithWall c).velocity.x = -BALL_SPEED := by
  simp only [Ball.CollideWithWall]
  split_ifs
  · exact Or.inl rfl
  · exact Or.inr (Or.inl rfl)
  · exact Or.inr (Or.inr rfl)
  · exact Or.inl rfl

/-- One frame keeps the ball's horizontal speed at `BALL_SPEED`. -/
theorem frame_velocity_x (s : GameState) (buttons : Buttons → Bool) (dt : ℚ)
    (h : s.ball.velocity.x = BALL_SPEED ∨ s.ball.velocity.x = -BALL_SPEED) :
    (frame s buttons dt).ball.velocity.x = BALL_SPEED ∨
    (frame s buttons dt).ball.velocity.x = -BALL_SPEED := by
  have hi : (integrate s buttons dt).ball.velocity.x = BALL_SPEED ∨
      (integrate s buttons dt).ball.velocity.x = -BALL_SPEED := by
    rw [integrate_ball_velocity]
    exact h
  have hneg : ∀ c : Contact,
      ((integrate s buttons dt).ball.CollideWithPaddle c).velocity.x = BALL_SPEED ∨
      ((integrate s buttons dt).ball.CollideWithPaddle c).velocity.x = -BALL_SPEED := by
    intro c
    rw [CollideWithPaddle_velocity_x]
    rcases hi with e | e
    · exact Or.inr (by rw [e])
    · exact Or.inl (by rw [e, neg_neg])
  simp only [frame]
  rw [resolveCollisions_ball]
  split_ifs
  · exact hneg _
  · exact hneg _
  · rcases CollideWithWall_velocity_x (integrate s buttons dt).ball
      (checkWallCollision (integrate s buttons dt).ball) with e | e | e
    · rw [e]
      exact hi
    · exact Or.inl e
    · exact Or.inr e
  · exact hi

/-- Any number of frames keeps the ball's horizontal speed at `BALL_SPEED`. -/
theorem run_velocity_x (inputs : List ((Buttons → Bool) × ℚ)) :
    ∀ s : GameState,
      (s.ball.velocity.x = BALL_SPEED ∨ s.ball.velocity.x = -BALL_SPEED) →
      ((run s inputs).ball.velocity.x = BALL_SPEED ∨
        (run s inputs).ball.velocity.x = -BALL_SPEED) := by
  induction inputs with
  | nil =>
    intro s h
    exact h
  | cons input rest ih =>
    intro s h
    exact ih (frame s input.1 input.2) (frame_velocity_x s input.1 input.2 h)

/-! ## Claim C8 -/

/-- C8: scores only move on a miss, by one, for the right player.  In every
frame step each score after the step is at least its value before; when the
applied contact is a wall `Left` (neither paddle reports a contact and the
wall check reports `Left`) player two's score increases by exactly one and
player one's is unchanged; when it is a wall `Right` player one's score
increases by exactly one and player two's is unchanged; in every other frame
both scores are unchanged. -/
theorem frame_scores (s : GameState) (buttons : Buttons → Bool) (dt : ℚ) :
    (s.playerOneScore ≤ (frame s buttons dt).playerOneScore ∧
      s.playerTwoScore ≤ (frame s buttons dt).playerTwoScore) ∧
    ((checkPaddleCollision (integrate s buttons dt).ball
          (integrate s buttons dt).paddleOne).type = collisionType.None →
      (checkPaddleCollision (integrate s buttons dt).ball
          (integrate s buttons dt).paddleTwo).type = collisionType.None →
      (checkWallCollision (integrate s buttons dt).ball).type = collisionType.Left →
      (frame s buttons dt).playerTwoScore = s.playerTwoScore + 1 ∧
        (frame s buttons dt).playerOneScore = s.playerOneScore) ∧
    ((checkPaddleCollision (integrate s buttons dt).ball
          (integrate s buttons dt).paddleOne).type = collisionType.None →
      (checkPaddleCollision (integrate s buttons dt).ball
          (integrate s buttons dt).paddleTwo).type = collisionType.None →
      (checkWallCollision (integrate s buttons dt).ball).type = collisionType.Right →
      (frame s buttons dt).playerOneScore = s.playerOneScore + 1 ∧
        (frame s buttons dt).playerTwoScore = s.playerTwoScore) ∧
    (¬ ((checkPaddleCollision (integrate s buttons dt).ball
          (integrate s buttons dt).paddleOne).type = collisionType.None ∧
        (checkPaddleCollision (integrate s buttons dt).ball
          (integrate s buttons dt).paddleTwo).type = collisionType.None ∧
        ((checkWallCollision (integrate s buttons dt).ball).type = collisionType.Left ∨
          (checkWallCollision (integrate s buttons dt).ball).type = collisionType.Right)) →
      (frame s buttons dt).playerOneScore = s.playerOneScore ∧
        (frame s buttons dt).playerTwoScore = s.playerTwoScore) := by
  have hs := integrate_scores s buttons dt
  have left_ne_none : collisionType.Left ≠ collisionType.None :=
    fun e => collisionType.noConfusion e
  have right_ne_none : collisionType.Right ≠ collisionType.None :=
    fun e => collisionType.noConfusion e
  have left_ne_right : collisionType.Left ≠ collisionType.Right :=
    fun e => collisionType.noConfusion e
  have hLeft : (checkPaddleCollision (integrate s buttons dt).ball
        (integrate s buttons dt).paddleOne).type = collisionType.None →
      (checkPaddleCollision (integrate s buttons dt).ball
        (integrate s buttons dt).paddleTwo).type = collisionType.None →
      (checkWallCollision (integrate s buttons dt).ball).type = collisionType.Left →
      (frame s buttons dt).playerTwoScore = s.playerTwoScore + 1 ∧
        (frame s buttons dt).playerOneScore = s.playerOneScore := by
    intro h1 h2 hw
    simp only [frame]
    rw [resolveCollisions_wall _ h1 h2, hw, if_neg left_ne_none, if_pos rfl,
      if_neg left_ne_right]
    exact ⟨by rw [← hs.2], by rw [← hs.1]⟩
  have hRight : (checkPaddleCollision (integrate s buttons dt).ball
        (integrate s buttons dt).paddleOne).type = collisionType.None →
      (checkPaddleCollision (integrate s buttons dt).ball
        (integrate s buttons dt).paddleTwo).type = collisionType.None →
      (checkWallCollision (integrate s buttons dt).ball).type = collisionType.Right →
      (frame s buttons dt).playerOneScore = s.playerOneScore + 1 ∧
        (frame s buttons dt).playerTwoScore = s.playerTwoScore := by
    intro h1 h2 hw
    simp only [frame]
    rw [resolveCollisions_wall _ h1 h2, hw, if_neg right_ne_none, if_pos rfl,
      if_neg left_ne_right.symm]
    exact ⟨by rw [← hs.1], by rw [← hs.2]⟩
  have hOther : ¬ ((checkPaddleCollision (integrate s buttons dt).ball
          (integrate s buttons dt).paddleOne).type = collisionType.None ∧
        (checkPaddleCollision (integrate s buttons dt).ball
          (integrate s buttons dt).paddleTwo).type = collisionType.None ∧
        ((checkWallCollision (integrate s buttons dt).ball).type = collisionType.Left ∨
          (checkWallCollision (integrate s buttons dt).ball).type = collisionType.Right)) →
      (frame s buttons dt).playerOneScore = s.playerOneScore ∧
        (frame s buttons dt).playerTwoScore = s.playerTwoScore := by
    intro hn
    simp only [frame]
    by_cases h1 : (checkPaddleCollision (integrate s buttons dt).ball
        (integrate s buttons dt).paddleOne).type = collisionType.None
    · by_cases h2 : (checkPaddleCollision (integrate s buttons dt).ball
          (integrate s buttons dt).paddleTwo).type = collisionType.None
      · rw [resolveCollisions_wall _ h1 h2]
        by_cases hw : (checkWallCollision (integrate s buttons dt).ball).type
            = collisionType.None
        · rw [if_pos hw]
          exact hs
        · have hl : (checkWallCollision (integrate s buttons dt).ball).type
              ≠ collisionType.Left := fun e => hn ⟨h1, h2, Or.inl e⟩
          have hr : (checkWallCollision (integrate s buttons dt).ball).type
              ≠ collisionType.Right := fun e => hn ⟨h1, h2, Or.inr e⟩
          rw [if_neg hw, if_neg hl, if_neg hr]
          exact hs
      · rw [resolveCollisions_paddleTwo _ h1 h2]
        exact hs
    · rw [resolveCollisions_paddleOne _ h1]
      exact hs
  refine ⟨?_, hLeft, hRight, hOther⟩
  by_cases hc : ((checkPaddleCollision (integrate s buttons dt).ball
          (integrate s buttons dt).paddleOne).type = collisionType.None ∧
        (checkPaddleCollision (integrate s buttons dt).ball
          (integrate s buttons dt).paddleTwo).type = collisionType.None ∧
        ((checkWallCollision (integrate s buttons dt).ball).type = collisionType.Left ∨
          (checkWallCollision (integrate s buttons dt).ball).type = collisionType.Right))
  · obtain ⟨h1, h2, hw | hw⟩ := hc
    · have h := hLeft h1 h2 hw
      rw [h.1, h.2]
      exact ⟨le_refl _, by linarith⟩
    · have h := hRight h1 h2 hw
      rw [h.1, h.2]
      exact ⟨by linarith, le_refl _⟩
  · have h := hOther hc
    rw [h.1, h.2]
    exact ⟨le_refl _, le_refl _⟩

/-- Witness for C8: from the initial state a frame with `dt = 1000` carries the
ball past the right wall; player one's score goes from 0 to 1 and player two's
stays at 0. -/
theorem frame_scores_witness :
    (frame initialState (fun _ => false) 1000).playerOneScore
      = initialState.playerOneScore + 1 ∧
    (frame initialState (fun _ => false) 1000).playerTwoScore
      = initialState.playerTwoScore := by
  have hi : integrate initialState (fun _ => false) 1000
      = GameState.mk (Ball.mk ⟨65 / 100, 0⟩ ⟨2565 / 2, 705 / 2⟩)
        (Paddle.mk ⟨50, 310⟩ ⟨0, 0⟩) (Paddle.mk ⟨1230, 310⟩ ⟨0, 0⟩) 0 0 := by
    simp [integrate, initialState, Ball.update, Paddle.update, vector2d.addAssign,
      vector2d.mul, WINDOW_HEIGHT, WINDOW_WIDTH, PADDLE_HEIGHT, BALL_WIDTH, BALL_HEIGHT,
      BALL_SPEED]
    norm_num
  have h1 : (checkPaddleCollision (integrate initialState (fun _ => false) 1000).ball
      (integrate initialState (fun _ => false) 1000).paddleOne).type
        = collisionType.None := by
    rw [hi, checkPaddleCollision_right_of _ _ (by norm_num)]
  have h2 : (checkPaddleCollision (integrate initialState (fun _ => false) 1000).ball
      (integrate initialState (fun _ => false) 1000).paddleTwo).type
        = collisionType.None := by
    rw [hi, checkPaddleCollision_right_of _ _ (by norm_num)]
  have hw : (checkWallCollision (integrate initialState (fun _ => false) 1000).ball).type
      = collisionType.Right := by
    rw [hi]
    simp only [checkWallCollision, BALL_WIDTH, WINDOW_WIDTH]
    norm_num
  exact (frame_scores initialState (fun _ => false) 1000).2.2.1 h1 h2 hw

/-! ## Claim C9 -/

/-- C9: the ball never stops.  In every state reachable from the initial state
by any number of frame steps, with arbitrary `dt` values and arbitrary button
flags, the ball's velocity is not `(0, 0)`. -/
theorem ball_never_stops (inputs : List ((Buttons → Bool) × ℚ)) :
    (run initialState inputs).ball.velocity ≠ ⟨0, 0⟩ := by
  intro h0
  have hx : (run initialState inputs).ball.velocity.x = 0 := by rw [h0]
  rcases run_velocity_x inputs initialState (Or.inl rfl) with e | e
  · rw [e] at hx
    norm_num [BALL_SPEED] at hx
  · rw [e] at hx
    norm_num [BALL_SPEED] at hx

/-! ## Claim C10 -/

/-- C10: at most one contact is applied per frame, in strict priority paddle
one, paddle two, wall.  With `b` the ball after integration, the resolved ball
is `CollideWithPaddle` of the paddle-one contact if that is not `None`;
otherwise `CollideWithPaddle` of the paddle-two contact if that is not `None`;
otherwise `CollideWithWall` of the wall contact if that is not `None`;
otherwise `b`.  When a paddle contact is applied no wall response is applied:
`position.y` is left as integration produced it and `velocity.y` is the value
written by the paddle rule, whatever the wall check says. -/
theorem frame_contact_priority (s : GameState) (buttons : Buttons → Bool) (dt : ℚ) :
    (frame s buttons dt).ball =
      (if (checkPaddleCollision (integrate s buttons dt).ball
            (integrate s buttons dt).paddleOne).type ≠ collisionType.None then
          (integrate s buttons dt).ball.CollideWithPaddle
            (checkPaddleCollision (integrate s buttons dt).ball
              (integrate s buttons dt).paddleOne)
        else if (checkPaddleCollision (integrate s buttons dt).ball
            (integrate s buttons dt).paddleTwo).type ≠ collisionType.None then
          (integrate s buttons dt).ball.CollideWithPaddle
            (checkPaddleCollision (integrate s buttons dt).ball
              (integrate s buttons dt).paddleTwo)
        else if (checkWallCollision (integrate s buttons dt).ball).type
            ≠ collisionType.None then
          (integrate s buttons dt).ball.CollideWithWall
            (checkWallCollision (integrate s buttons dt).ball)
        else (integrate s buttons dt).ball) ∧
    (((checkPaddleCollision (integrate s buttons dt).ball
          (integrate s buttons dt).paddleOne).type ≠ collisionType.None ∨
        (checkPaddleCollision (integrate s buttons dt).ball
          (integrate s buttons dt).paddleTwo).type ≠ collisionType.None) →
      (frame s buttons dt).ball.position.y = (integrate s buttons dt).ball.position.y ∧
      ((frame s buttons dt).ball.velocity.y = -(75 / 100) * BALL_SPEED ∨
        (frame s buttons dt).ball.velocity.y = (75 / 100) * BALL_SPEED ∨
        (frame s buttons dt).ball.velocity.y = (integrate s buttons dt).ball.velocity.y)) := by
  have h : (frame s buttons dt).ball = _ := resolveCollisions_ball (integrate s buttons dt)
  refine ⟨h, ?_⟩
  intro hp
  rw [h]
  by_cases h1 : (checkPaddleCollision (integrate s buttons dt).ball
      (integrate s buttons dt).paddleOne).type ≠ collisionType.None
  · rw [if_pos h1, CollideWithPaddle_position]
    exact ⟨rfl, CollideWithPaddle_velocity_y _ _⟩
  · rw [if_neg h1]
    have h2 := hp.resolve_left h1
    rw [if_pos h2, CollideWithPaddle_position]
    exact ⟨rfl, CollideWithPaddle_velocity_y _ _⟩

/-- Witness for C10: the ball at `(61, 1)` moves up and left for `dt = 10` and
ends at `(54.5, -3.875)`, overlapping paddle one (at `(50, 0)`) and beyond the
top wall.  The wall check on the integrated ball reports `Top`, but the paddle
contact is the one applied and `position.y` stays negative. -/
theorem frame_contact_priority_witness :
    (checkWallCollision
        (integrate
          (GameState.mk (Ball.mk ⟨-(65 / 100), -(4875 / 10000)⟩ ⟨61, 1⟩)
            (Paddle.mk ⟨50, 0⟩ ⟨0, 0⟩) (Paddle.mk ⟨1230, 310⟩ ⟨0, 0⟩) 0 0)
          (fun _ => false) 10).ball).type = collisionType.Top ∧
    (integrate
        (GameState.mk (Ball.mk ⟨-(65 / 100), -(4875 / 10000)⟩ ⟨61, 1⟩)
          (Paddle.mk ⟨50, 0⟩ ⟨0, 0⟩) (Paddle.mk ⟨1230, 310⟩ ⟨0, 0⟩) 0 0)
        (fun _ => false) 10).ball.position.y < 0 ∧
    (frame
        (GameState.mk (Ball.mk ⟨-(65 / 100), -(4875 / 10000)⟩ ⟨61, 1⟩)
          (Paddle.mk ⟨50, 0⟩ ⟨0, 0⟩) (Paddle.mk ⟨1230, 310⟩ ⟨0, 0⟩) 0 0)
        (fun _ => false) 10).ball.position.y
      = (integrate
        (GameState.mk (Ball.mk ⟨-(65 / 100), -(4875 / 10000)⟩ ⟨61, 1⟩)
          (Paddle.mk ⟨50, 0⟩ ⟨0, 0⟩) (Paddle.mk ⟨1230, 310⟩ ⟨0, 0⟩) 0 0)
        (fun _ => false) 10).ball.position.y := by
  have hi : integrate
      (GameState.mk (Ball.mk ⟨-(65 / 100), -(4875 / 10000)⟩ ⟨61, 1⟩)
        (Paddle.mk ⟨50, 0⟩ ⟨0, 0⟩) (Paddle.mk ⟨1230, 310⟩ ⟨0, 0⟩) 0 0)
      (fun _ => false) 10
      = GameState.mk (Ball.mk ⟨-(65 / 100), -(4875 / 10000)⟩ ⟨109 / 2, -(31 / 8)⟩)
        (Paddle.mk ⟨50, 0⟩ ⟨0, 0⟩) (Paddle.mk ⟨1230, 310⟩ ⟨0, 0⟩) 0 0 := by
    simp [integrate, Ball.update, Paddle.update, vector2d.addAssign, vector2d.mul,
      WINDOW_HEIGHT, PADDLE_HEIGHT]
    norm_num
  have hp : (checkPaddleCollision
      (integrate
        (GameState.mk (Ball.mk ⟨-(65 / 100), -(4875 / 10000)⟩ ⟨61, 1⟩)
          (Paddle.mk ⟨50, 0⟩ ⟨0, 0⟩) (Paddle.mk ⟨1230, 310⟩ ⟨0, 0⟩) 0 0)
        (fun _ => false) 10).ball
      (integrate
        (GameState.mk (Ball.mk ⟨-(65 / 100), -(4875 / 10000)⟩ ⟨61, 1⟩)
          (Paddle.mk ⟨50, 0⟩ ⟨0, 0⟩) (Paddle.mk ⟨1230, 310⟩ ⟨0, 0⟩) 0 0)
        (fun _ => false) 10).paddleOne).type ≠ collisionType.None := by
    rw [hi, checkPaddleCollision_overlap _ _ (by norm_num) (by norm_num) (by norm_num)
      (by norm_num)]
    norm_num
    decide
  refine ⟨?_, ?_, ((frame_contact_priority _ _ _).2 (Or.inl hp)).1⟩
  · rw [hi]
    simp only [checkWallCollision, BALL_WIDTH, WINDOW_WIDTH]
    norm_num
  · rw [hi]
    norm_num

/-! ## Claim C11 -/

/-- C11: the left wall wins.  For every ball with `ballLeft < 0`,
`checkWallCollision` returns type `Left` (with penetration 0), whatever the
`y` coordinate and the velocity are; in particular the type is not `Top`, also
when `ballTop < 0`. -/
theorem checkWallCollision_left_wins (ball : Ball) (h : ball.position.x < 0) :
    checkWallCollision ball = ⟨collisionType.Left, 0⟩ ∧
    (checkWallCollision ball).type = collisionType.Left ∧
    (checkWallCollision ball).type ≠ collisionType.Top := by
  have hc : checkWallCollision ball = ⟨collisionType.Left, 0⟩ := by
    simp only [checkWallCollision]
    rw [if_pos h]
  rw [hc]
  exact ⟨rfl, rfl, fun e => collisionType.noConfusion e⟩

/-- Witness for C11: a ball at `(-1, -3)`, beyond both the left and the top
wall, is reported as `Left`. -/
theorem checkWallCollision_left_wins_witness :
    (Ball.mk ⟨-(65 / 100), -(4875 / 10000)⟩ ⟨-1, -3⟩).position.y < 0 ∧
    (checkWallCollision (Ball.mk ⟨-(65 / 100), -(4875 / 10000)⟩ ⟨-1, -3⟩)).type
      = collisionType.Left :=
  ⟨by norm_num,
    (checkWallCollision_left_wins (Ball.mk ⟨-(65 / 100), -(4875 / 10000)⟩ ⟨-1, -3⟩)
      (by norm_num)).2.1⟩

/-! ## Shared facts about the paddles in a frame -/

/-- `Paddle.update` leaves the paddle's velocity unchanged. -/
theorem Paddle_update_velocity (p : Paddle) (dt : ℚ) :
    (p.update dt).velocity = p.velocity := by
  simp only [Paddle.update]
  split_ifs <;> rfl

/-- `Paddle.update` integrates `position.x` without clamping. -/
theorem Paddle_update_position_x (p : Paddle) (dt : ℚ) :
    (p.update dt).position.x = p.position.x + p.velocity.x * dt := by
  simp only [Paddle.update, vector2d.addAssign, vector2d.mul]
  split_ifs <;> rfl

/-- Collision resolution does not touch the paddles. -/
theorem resolveCollisions_paddles (s : GameState) :
    (resolveCollisions s).paddleOne = s.paddleOne ∧
    (resolveCollisions s).paddleTwo = s.paddleTwo := by
  by_cases h1 : (checkPaddleCollision s.ball s.paddleOne).type = collisionType.None
  · by_cases h2 : (checkPaddleCollision s.ball s.paddleTwo).type = collisionType.None
    · rw [resolveCollisions_wall s h1 h2]
      by_cases hw : (checkWallCollision s.ball).type = collisionType.None
      · rw [if_pos hw]
        exact ⟨rfl, rfl⟩
      · rw [if_neg hw]
        exact ⟨rfl, rfl⟩
    · rw [resolveCollisions_paddleTwo s h1 h2]
      exact ⟨rfl, rfl⟩
  · rw [resolveCollisions_paddleOne s h1]
    exact ⟨rfl, rfl⟩

/-- Paddle one after integration: its velocity is assigned from its two flags,
then it is updated. -/
theorem integrate_paddleOne (s : GameState) (buttons : Buttons → Bool) (dt : ℚ) :
    (integrate s buttons dt).paddleOne =
      (Paddle.mk s.paddleOne.position
        ⟨s.paddleOne.velocity.x,
          if buttons Buttons.PaddleOneUp then -PADDLE_SPEED
          else if buttons Buttons.PaddleOneDown then PADDLE_SPEED else 0⟩).update dt := by
  simp only [integrate]
  split_ifs <;> rfl

/-- Paddle two after integration: its velocity is assigned from its two flags,
then it is updated. -/
theorem integrate_paddleTwo (s : GameState) (buttons : Buttons → Bool) (dt : ℚ) :
    (integrate s buttons dt).paddleTwo =
      (Paddle.mk s.paddleTwo.position
        ⟨s.paddleTwo.velocity.x,
          if buttons Buttons.PaddleTwoUp then -PADDLE_SPEED
          else if buttons Buttons.PaddleTwoDown then PADDLE_SPEED else 0⟩).update dt := by
  simp only [integrate]
  split_ifs <;> rfl

/-! ## Claim C13 -/

/-- C13: Up precedence in the per-frame paddle velocity rule.  For each paddle
and every combination of the four flags, the `velocity.y` assigned for the
frame (the one the paddle is integrated with and carries after the frame) is
`-PADDLE_SPEED` when that paddle's Up flag is set, also when its Down flag is
set too, `+PADDLE_SPEED` when only its Down flag is set, and `0` when neither
is set.  It depends only on that paddle's own two flags: two frames from any
two states, with any two `dt`, that agree on these two flags assign the same
`velocity.y`. -/
theorem paddle_velocity_rule (s : GameState) (buttons : Buttons → Bool) (dt : ℚ) :
    (frame s buttons dt).paddleOne =
      (Paddle.mk s.paddleOne.position
        ⟨s.paddleOne.velocity.x,
          if buttons Buttons.PaddleOneUp then -PADDLE_SPEED
          else if buttons Buttons.PaddleOneDown then PADDLE_SPEED else 0⟩).update dt ∧
    (frame s buttons dt).paddleTwo =
      (Paddle.mk s.paddleTwo.position
        ⟨s.paddleTwo.velocity.x,
          if buttons Buttons.PaddleTwoUp then -PADDLE_SPEED
          else if buttons Buttons.PaddleTwoDown then PADDLE_SPEED else 0⟩).update dt ∧
    (frame s buttons dt).paddleOne.velocity.y =
      (if buttons Buttons.PaddleOneUp then -PADDLE_SPEED
        else if buttons Buttons.PaddleOneDown then PADDLE_SPEED else 0) ∧
    (frame s buttons dt).paddleTwo.velocity.y =
      (if buttons Buttons.PaddleTwoUp then -PADDLE_SPEED
        else if buttons Buttons.PaddleTwoDown then PADDLE_SPEED else 0) ∧
    (∀ (s2 : GameState) (buttons2 : Buttons → Bool) (dt2 : ℚ),
      buttons2 Buttons.PaddleOneUp = buttons Buttons.PaddleOneUp →
      buttons2 Buttons.PaddleOneDown = buttons Buttons.PaddleOneDown →
      (frame s2 buttons2 dt2).paddleOne.velocity.y
        = (frame s buttons dt).paddleOne.velocity.y) ∧
    (∀ (s2 : GameState) (buttons2 : Buttons → Bool) (dt2 : ℚ),
      buttons2 Buttons.PaddleTwoUp = buttons Buttons.PaddleTwoUp →
      buttons2 Buttons.PaddleTwoDown = buttons Buttons.PaddleTwoDown →
      (frame s2 buttons2 dt2).paddleTwo.velocity.y
        = (frame s buttons dt).paddleTwo.velocity.y) := by
  have p1 : ∀ (t : GameState) (b : Buttons → Bool) (d : ℚ),
      (frame t b d).paddleOne =
        (Paddle.mk t.paddleOne.position
          ⟨t.paddleOne.velocity.x,
            if b Buttons.PaddleOneUp then -PADDLE_SPEED
            else if b Buttons.PaddleOneDown then PADDLE_SPEED else 0⟩).update d := by
    intro t b d
    simp only [frame]
    rw [(resolveCollisions_paddles _).1, integrate_paddleOne]
  have p2 : ∀ (t : GameState) (b : Buttons → Bool) (d : ℚ),
      (frame t b d).paddleTwo =
        (Paddle.mk t.paddleTwo.position
          ⟨t.paddleTwo.velocity.x,
            if b Buttons.PaddleTwoUp then -PADDLE_SPEED
            else if b Buttons.PaddleTwoDown then PADDLE_SPEED else 0⟩).update d := by
    intro t b d
    simp only [frame]
    rw [(resolveCollisions_paddles _).2, integrate_paddleTwo]
  have v1 : ∀ (t : GameState) (b : Buttons → Bool) (d : ℚ),
      (frame t b d).paddleOne.velocity.y =
        (if b Buttons.PaddleOneUp then -PADDLE_SPEED
          else if b Buttons.PaddleOneDown then PADDLE_SPEED else 0) := by
    intro t b d
    rw [p1, Paddle_update_velocity]
  have v2 : ∀ (t : GameState) (b : Buttons → Bool) (d : ℚ),
      (frame t b d).paddleTwo.velocity.y =
        (if b Buttons.PaddleTwoUp then -PADDLE_SPEED
          else if b Buttons.PaddleTwoDown then PADDLE_SPEED else 0) := by
    intro t b d
    rw [p2, Paddle_update_velocity]
  refine ⟨p1 s buttons dt, p2 s buttons dt, v1 s buttons dt, v2 s buttons dt, ?_, ?_⟩
  · intro s2 buttons2 dt2 hu hd
    rw [v1, v1, hu, hd]
  · intro s2 buttons2 dt2 hu hd
    rw [v2, v2, hu, hd]

/-- Witness for C13: with all four flags held, both paddles get
`velocity.y = -PADDLE_SPEED = -1`. -/
theorem paddle_velocity_rule_witness :
    (frame initialState (fun _ => true) 16).paddleOne.velocity.y = -1 ∧
    (frame initialState (fun _ => true) 16).paddleTwo.velocity.y = -1 := by
  have h := paddle_velocity_rule initialState (fun _ => true) 16
  refine ⟨?_, ?_⟩
  · rw [h.2.2.1]
    simp [PADDLE_SPEED]
  · rw [h.2.2.2.1]
    simp [PADDLE_SPEED]

/-! ## Shared facts about contact ranges and the wall check -/

/-- A paddle contact needs horizontal overlap of the two boxes. -/
theorem checkPaddleCollision_contact_x (ball : Ball) (paddle : Paddle)
    (h : (checkPaddleCollision ball paddle).type ≠ collisionType.None) :
    ball.position.x < paddle.position.x + 10 ∧ paddle.position.x < ball.position.x + 15 := by
  constructor
  · by_contra hc
    exact h (by rw [checkPaddleCollision_right_of ball paddle (not_lt.mp hc)])
  · by_contra hc
    exact h (by rw [checkPaddleCollision_left_of ball paddle (not_lt.mp hc)])

/-- The wall check written with the numeric values of the constants. -/
theorem checkWallCollision_unfold (ball : Ball) :
    checkWallCollision ball =
      (if ball.position.x < 0 then ⟨collisionType.Left, 0⟩
        else if 1280 < ball.position.x + 15 then ⟨collisionType.Right, 0⟩
        else if ball.position.y < 0 then ⟨collisionType.Top, -ball.position.y⟩
        else if 720 < ball.position.y + 15 then
          ⟨collisionType.Bottom, 720 - (ball.position.y + 15)⟩
        else ⟨collisionType.None, 0⟩) := by
  simp only [checkWallCollision, BALL_WIDTH, BALL_HEIGHT, WINDOW_WIDTH, WINDOW_HEIGHT,
    Contact.zero]
  norm_num only [Int.cast_ofNat, gt_iff_lt]

/-- A wall contact of type `Left` means the ball's left edge is beyond the
left wall. -/
theorem checkWallCollision_left_x (ball : Ball)
    (h : (checkWallCollision ball).type = collisionType.Left) : ball.position.x < 0 := by
  rw [checkWallCollision_unfold] at h
  by_contra hc
  rw [if_neg hc] at h
  split_ifs at h

/-- A wall contact of type `Right` means the ball's right edge is beyond the
right wall. -/
theorem checkWallCollision_right_x (ball : Ball)
    (h : (checkWallCollision ball).type = collisionType.Right) :
    1280 < ball.position.x + 15 := by
  rw [checkWallCollision_unfold] at h
  by_contra hc
  by_cases h0 : ball.position.x < 0
  · rw [if_pos h0] at h
    exact collisionType.noConfusion h
  · rw [if_neg h0, if_neg hc] at h
    split_ifs at h

/-- The frame leaves each paddle as integration produced it. -/
theorem frame_paddles (s : GameState) (buttons : Buttons → Bool) (dt : ℚ) :
    (frame s buttons dt).paddleOne = (integrate s buttons dt).paddleOne ∧
    (frame s buttons dt).paddleTwo = (integrate s buttons dt).paddleTwo :=
  resolveCollisions_paddles (integrate s buttons dt)

/-- A paddle with no horizontal velocity keeps its `x` through integration,
and its horizontal velocity stays zero. -/
theorem integrate_paddle_x (s : GameState) (buttons : Buttons → Bool) (dt : ℚ)
    (h1 : s.paddleOne.velocity.x = 0) (h2 : s.paddleTwo.velocity.x = 0) :
    ((integrate s buttons dt).paddleOne.position.x = s.paddleOne.position.x ∧
      (integrate s buttons dt).paddleOne.velocity.x = 0) ∧
    ((integrate s buttons dt).paddleTwo.position.x = s.paddleTwo.position.x ∧
      (integrate s buttons dt).paddleTwo.velocity.x = 0) := by
  rw [integrate_paddleOne, integrate_paddleTwo]
  refine ⟨⟨?_, ?_⟩, ⟨?_, ?_⟩⟩
  · rw [Paddle_update_position_x]
    show s.paddleOne.position.x + s.paddleOne.velocity.x * dt = _
    rw [h1, zero_mul, add_zero]
  · rw [Paddle_update_velocity]
    exact h1
  · rw [Paddle_update_position_x]
    show s.paddleTwo.position.x + s.paddleTwo.velocity.x * dt = _
    rw [h2, zero_mul, add_zero]
  · rw [Paddle_update_velocity]
    exact h2

/-- Any number of frames keeps both paddles at the `x` they start from, as
long as they start with no horizontal velocity. -/
theorem run_paddle_x (inputs : List ((Buttons → Bool) × ℚ)) :
    ∀ s : GameState, s.paddleOne.velocity.x = 0 → s.paddleTwo.velocity.x = 0 →
      ((run s inputs).paddleOne.position.x = s.paddleOne.position.x ∧
        (run s inputs).paddleOne.velocity.x = 0) ∧
      ((run s inputs).paddleTwo.position.x = s.paddleTwo.position.x ∧
        (run s inputs).paddleTwo.velocity.x = 0) := by
  induction inputs with
  | nil =>
    intro s h1 h2
    exact ⟨⟨rfl, h1⟩, ⟨rfl, h2⟩⟩
  | cons input rest ih =>
    intro s h1 h2
    have hi := integrate_paddle_x s input.1 input.2 h1 h2
    have hf := frame_paddles s input.1 input.2
    have g1 : (frame s input.1 input.2).paddleOne.velocity.x = 0 := by
      rw [hf.1]
      exact hi.1.2
    have g2 : (frame s input.1 input.2).paddleTwo.velocity.x = 0 := by
      rw [hf.2]
      exact hi.2.2
    have hr := ih (frame s input.1 input.2) g1 g2
    refine ⟨⟨?_, hr.1.2⟩, ⟨?_, hr.2.2⟩⟩
    · show (run (frame s input.1 input.2) rest).paddleOne.position.x = _
      rw [hr.1.1, hf.1]
      exact hi.1.1
    · show (run (frame s input.1 input.2) rest).paddleTwo.position.x = _
      rw [hr.2.1, hf.2]
      exact hi.2.1

/-! ## Claim C15 -/

/-- C15: the priority order never hides a score.  With paddle one at `x = 50`
and paddle two at `x = 1230` (the positions they hold in every state reachable
from the initial one) and any paddle `y`, for every ball at most one of these
holds: the paddle-one check is not `None`, the paddle-two check is not `None`,
the wall check is `Left` or `Right`.  Hence in every frame of a session, a
ball that is past the left or right wall after integration produces the score
event in that frame. -/
theorem priority_never_hides_score (ball : Ball) (y1 y2 : ℚ) (v1 v2 : vector2d)
    (inputs : List ((Buttons → Bool) × ℚ)) (buttons : Buttons → Bool) (dt : ℚ) :
    ¬ ((checkPaddleCollision ball (Paddle.mk ⟨50, y1⟩ v1)).type ≠ collisionType.None ∧
        (checkPaddleCollision ball (Paddle.mk ⟨1230, y2⟩ v2)).type ≠ collisionType.None) ∧
    ¬ ((checkPaddleCollision ball (Paddle.mk ⟨50, y1⟩ v1)).type ≠ collisionType.None ∧
        ((checkWallCollision ball).type = collisionType.Left ∨
          (checkWallCollision ball).type = collisionType.Right)) ∧
    ¬ ((checkPaddleCollision ball (Paddle.mk ⟨1230, y2⟩ v2)).type ≠ collisionType.None ∧
        ((checkWallCollision ball).type = collisionType.Left ∨
          (checkWallCollision ball).type = collisionType.Right)) ∧
    ((run initialState inputs).paddleOne.position.x = 50 ∧
      (run initialState inputs).paddleTwo.position.x = 1230) ∧
    ((checkWallCollision (integrate (run initialState inputs) buttons dt).ball).type
        = collisionType.Left →
      (frame (run initialState inputs) buttons dt).playerTwoScore
        = (run initialState inputs).playerTwoScore + 1) ∧
    ((checkWallCollision (integrate (run initialState inputs) buttons dt).ball).type
        = collisionType.Right →
      (frame (run initialState inputs) buttons dt).playerOneScore
        = (run initialState inputs).playerOneScore + 1) := by
  have hs := run_paddle_x inputs initialState rfl rfl
  have hx1 : (run initialState inputs).paddleOne.position.x = 50 := hs.1.1
  have hx2 : (run initialState inputs).paddleTwo.position.x = 1230 := by
    rw [hs.2.1]
    norm_num [initialState, WINDOW_WIDTH]
  have hi := integrate_paddle_x (run initialState inputs) buttons dt hs.1.2 hs.2.2
  have hp1 : (integrate (run initialState inputs) buttons dt).paddleOne.position.x = 50 := by
    rw [hi.1.1, hx1]
  have hp2 : (integrate (run initialState inputs) buttons dt).paddleTwo.position.x
      = 1230 := by
    rw [hi.2.1, hx2]
  refine ⟨?_, ?_, ?_, ⟨hx1, hx2⟩, ?_, ?_⟩
  · rintro ⟨a, b⟩
    have ha := checkPaddleCollision_contact_x _ _ a
    have hb := checkPaddleCollision_contact_x _ _ b
    simp only at ha hb
    linarith [ha.1, hb.2]
  · rintro ⟨a, w⟩
    have ha := checkPaddleCollision_contact_x _ _ a
    simp only at ha
    rcases w with w | w
    · linarith [ha.2, checkWallCollision_left_x ball w]
    · linarith [ha.1, checkWallCollision_right_x ball w]
  · rintro ⟨b, w⟩
    have hb := checkPaddleCollision_contact_x _ _ b
    simp only at hb
    rcases w with w | w
    · linarith [hb.2, checkWallCollision_left_x ball w]
    · linarith [hb.1, checkWallCollision_right_x ball w]
  · intro hw
    have hx := checkWallCollision_left_x _ hw
    have h1 : (checkPaddleCollision (integrate (run initialState inputs) buttons dt).ball
        (integrate (run initialState inputs) buttons dt).paddleOne).type
          = collisionType.None := by
      rw [checkPaddleCollision_left_of _ _ (by rw [hp1]; linarith)]
    have h2 : (checkPaddleCollision (integrate (run initialState inputs) buttons dt).ball
        (integrate (run initialState inputs) buttons dt).paddleTwo).type
          = collisionType.None := by
      rw [checkPaddleCollision_left_of _ _ (by rw [hp2]; linarith)]
    simp only [frame]
    rw [resolveCollisions_wall _ h1 h2, hw, if_neg (fun e => collisionType.noConfusion e),
      if_pos rfl]
    rfl
  · intro hw
    have hx := checkWallCollision_right_x _ hw
    have h1 : (checkPaddleCollision (integrate (run initialState inputs) buttons dt).ball
        (integrate (run initialState inputs) buttons dt).paddleOne).type
          = collisionType.None := by
      rw [checkPaddleCollision_right_of _ _ (by rw [hp1]; linarith)]
    have h2 : (checkPaddleCollision (integrate (run initialState inputs) buttons dt).ball
        (integrate (run initialState inputs) buttons dt).paddleTwo).type
          = collisionType.None := by
      rw [checkPaddleCollision_right_of _ _ (by rw [hp2]; linarith)]
    simp only [frame]
    rw [resolveCollisions_wall _ h1 h2, hw, if_neg (fun e => collisionType.noConfusion e),
      if_pos rfl]
    rfl

/-! ## Claim C17 -/

/-- The vertical velocity written by `CollideWithWall` is the previous one, its
negation, or the serve value. -/
theorem CollideWithWall_velocity_y (b : Ball) (c : Contact) :
    (b.CollideWithWall c).velocity.y = b.velocity.y ∨
    (b.CollideWithWall c).velocity.y = -b.velocity.y ∨
    (b.CollideWithWall c).velocity.y = (75 / 100) * BALL_SPEED := by
  simp only [Ball.CollideWithWall]
  split_ifs
  · exact Or.inr (Or.inl rfl)
  · exact Or.inr (Or.inr rfl)
  · exact Or.inr (Or.inr rfl)
  · exact Or.inl rfl

/-- One frame keeps the ball's vertical velocity among `0`, `0.75*BALL_SPEED`
and `-0.75*BALL_SPEED`. -/
theorem frame_velocity_y (s : GameState) (buttons : Buttons → Bool) (dt : ℚ)
    (h : s.ball.velocity.y = 0 ∨ s.ball.velocity.y = (75 / 100) * BALL_SPEED ∨
      s.ball.velocity.y = -(75 / 100) * BALL_SPEED) :
    (frame s buttons dt).ball.velocity.y = 0 ∨
    (frame s buttons dt).ball.velocity.y = (75 / 100) * BALL_SPEED ∨
    (frame s buttons dt).ball.velocity.y = -(75 / 100) * BALL_SPEED := by
  have hi : (integrate s buttons dt).ball.velocity.y = 0 ∨
      (integrate s buttons dt).ball.velocity.y = (75 / 100) * BALL_SPEED ∨
      (integrate s buttons dt).ball.velocity.y = -(75 / 100) * BALL_SPEED := by
    rw [integrate_ball_velocity]
    exact h
  have hpad : ∀ c : Contact,
      ((integrate s buttons dt).ball.CollideWithPaddle c).velocity.y = 0 ∨
      ((integrate s buttons dt).ball.CollideWithPaddle c).velocity.y
        = (75 / 100) * BALL_SPEED ∨
      ((integrate s buttons dt).ball.CollideWithPaddle c).velocity.y
        = -(75 / 100) * BALL_SPEED := by
    intro c
    rcases CollideWithPaddle_velocity_y (integrate s buttons dt).ball c with e | e | e
    · exact Or.inr (Or.inr e)
    · exact Or.inr (Or.inl e)
    · rw [e]
      exact hi
  simp only [frame]
  rw [resolveCollisions_ball]
  split_ifs
  · exact hpad _
  · exact hpad _
  · rcases CollideWithWall_velocity_y (integrate s buttons dt).ball
      (checkWallCollision (integrate s buttons dt).ball) with e | e | e
    · rw [e]
      exact hi
    · rw [e]
      rcases hi with g | g | g
      · exact Or.inl (by rw [g, neg_zero])
      · exact Or.inr (Or.inr (by rw [g, neg_mul]))
      · exact Or.inr (Or.inl (by rw [g, neg_mul, neg_neg]))
    · exact Or.inr (Or.inl e)
  · exact hi

/-- Any number of frames keeps the ball's vertical velocity among `0`,
`0.75*BALL_SPEED` and `-0.75*BALL_SPEED`. -/
theorem run_velocity_y (inputs : List ((Buttons → Bool) × ℚ)) :
    ∀ s : GameState,
      (s.ball.velocity.y = 0 ∨ s.ball.velocity.y = (75 / 100) * BALL_SPEED ∨
        s.ball.velocity.y = -(75 / 100) * BALL_SPEED) →
      ((run s inputs).ball.velocity.y = 0 ∨
        (run s inputs).ball.velocity.y = (75 / 100) * BALL_SPEED ∨
        (run s inputs).ball.velocity.y = -(75 / 100) * BALL_SPEED) := by
  induction inputs with
  | nil =>
    intro s h
    exact h
  | cons input rest ih =>
    intro s h
    exact ih (frame s input.1 input.2) (frame_velocity_y s input.1 input.2 h)

/-- C17: the ball's velocity only ever takes six values.  In every state
reachable from the initial state by any number of frame steps, with arbitrary
`dt` and button flags, `velocity.x` is `+BALL_SPEED` or `-BALL_SPEED` (`0.65`
in magnitude) and `velocity.y` is one of `0`, `+0.75*BALL_SPEED`,
`-0.75*BALL_SPEED` (that is `0`, `0.4875`, `-0.4875`). -/
theorem ball_velocity_six_values (inputs : List ((Buttons → Bool) × ℚ)) :
    ((run initialState inputs).ball.velocity.x = BALL_SPEED ∨
      (run initialState inputs).ball.velocity.x = -BALL_SPEED) ∧
    ((run initialState inputs).ball.velocity.y = 0 ∨
      (run initialState inputs).ball.velocity.y = (75 / 100) * BALL_SPEED ∨
      (run initialState inputs).ball.velocity.y = -(75 / 100) * BALL_SPEED) ∧
    |(run initialState inputs).ball.velocity.x| = 65 / 100 ∧
    ((run initialState inputs).ball.velocity.y = 0 ∨
      (run initialState inputs).ball.velocity.y = 4875 / 10000 ∨
      (run initialState inputs).ball.velocity.y = -(4875 / 10000)) := by
  have hx := run_velocity_x inputs initialState (Or.inl rfl)
  have hy := run_velocity_y inputs initialState (Or.inl rfl)
  refine ⟨hx, hy, ?_, ?_⟩
  · rcases hx with e | e
    · rw [e]
      norm_num [BALL_SPEED]
    · rw [e, abs_neg]
      norm_num [BALL_SPEED]
  · rcases hy with e | e | e
    · exact Or.inl e
    · refine Or.inr (Or.inl ?_)
      rw [e]
      norm_num [BALL_SPEED]
    · refine Or.inr (Or.inr ?_)
      rw [e]
      norm_num [BALL_SPEED]

/-! ## Binary32 rounding: basic facts -/

namespace F32

/-- The rounded integer is within one half of the argument. -/
theorem roundEven_bounds (t : ℚ) :
    t - 1 / 2 ≤ (roundEven t : ℚ) ∧ (roundEven t : ℚ) ≤ t + 1 / 2 := by
  have h1 : (⌊t⌋ : ℚ) ≤ t := Int.floor_le t
  have h2 : t < (⌊t⌋ : ℚ) + 1 := Int.lt_floor_add_one t
  simp only [roundEven]
  split_ifs with a b c
  · constructor <;> linarith
  · push_cast
    constructor <;> linarith
  · have e : t - ⌊t⌋ = 1 / 2 := le_antisymm (not_lt.mp b) (not_lt.mp a)
    constructor <;> linarith
  · have e : t - ⌊t⌋ = 1 / 2 := le_antisymm (not_lt.mp b) (not_lt.mp a)
    push_cast
    constructor <;> linarith

/-- An integer rounds to itself. -/
theorem roundEven_intCast (n : ℤ) : roundEven (n : ℚ) = n := by
  simp [roundEven]

/-- Rounding to the nearest integer is monotone. -/
theorem roundEven_mono {s t : ℚ} (h : s ≤ t) : roundEven s ≤ roundEven t := by
  by_contra hc
  have hlt : roundEven t + 1 ≤ roundEven s := not_le.mp hc
  have hq : ((roundEven t + 1 : ℤ) : ℚ) ≤ (roundEven s : ℚ) := by exact_mod_cast hlt
  push_cast at hq
  have bs := roundEven_bounds s
  have bt := roundEven_bounds t
  have es : s = t := by linarith [bs.2, bt.1]
  rw [es] at hlt
  omega

/-- An argument within less than one half of an integer rounds to it. -/
theorem roundEven_eq_of_near (t : ℚ) (n : ℤ) (hlo : (n : ℚ) - 1 / 2 < t)
    (hhi : t < (n : ℚ) + 1 / 2) : roundEven t = n := by
  have b := roundEven_bounds t
  have h1 : ((roundEven t : ℤ) : ℚ) < ((n + 1 : ℤ) : ℚ) := by
    push_cast
    linarith [b.2]
  have h2 : ((n - 1 : ℤ) : ℚ) < ((roundEven t : ℤ) : ℚ) := by
    push_cast
    linarith [b.1]
  have h3 : roundEven t < n + 1 := by exact_mod_cast h1
  have h4 : n - 1 < roundEven t := by exact_mod_cast h2
  omega

/-- The binade exponent never drops below the subnormal clamp. -/
theorem expo_ge (x : ℚ) : -126 ≤ expo x := le_max_right _ _

/-- The spacing of binary32 values in any binade is positive. -/
theorem quantum_pos (x : ℚ) : (0 : ℚ) < 2 ^ (expo x - 23) := zpow_pos (by norm_num) _

/-- The binade exponent of a value whose magnitude lies in `[2^e, 2^(e+1))`. -/
theorem expo_eq (x : ℚ) (e : ℤ) (he : -126 ≤ e) (h1 : (2 : ℚ) ^ e ≤ |x|)
    (h2 : |x| < (2 : ℚ) ^ (e + 1)) : expo x = e := by
  have hpos : 0 < |x| := lt_of_lt_of_le (zpow_pos (by norm_num) e) h1
  have hlog : Int.log 2 |x| = e := by
    have a : e ≤ Int.log 2 |x| := (Int.zpow_le_iff_le_log (by norm_num) hpos).mp (by exact_mod_cast h1)
    have b : Int.log 2 |x| < e + 1 := (Int.lt_zpow_iff_log_lt (by norm_num) hpos).mp (by exact_mod_cast h2)
    omega
  simp only [expo, hlog]
  exact max_eq_left he


/-- Rounding to the nearest integer, ties to even, commutes with negation. -/
theorem roundEven_neg (t : ℚ) : roundEven (-t) = -roundEven t := by
  by_cases htie : t - ⌊t⌋ = 1 / 2
  · have hf : ⌊-t⌋ = -⌊t⌋ - 1 := by
      rw [Int.floor_eq_iff]
      push_cast
      constructor <;> linarith
    have e1 : ¬ (t - ⌊t⌋ < 1 / 2) := by rw [htie]; exact lt_irrefl _
    have e2 : ¬ (t - ⌊t⌋ > 1 / 2) := by rw [htie]; exact lt_irrefl _
    have e3 : -t - ((-⌊t⌋ - 1 : ℤ) : ℚ) = 1 / 2 := by
      push_cast
      linarith
    have e4 : ¬ (-t - ((-⌊t⌋ - 1 : ℤ) : ℚ) < 1 / 2) := by rw [e3]; exact lt_irrefl _
    have e5 : ¬ (-t - ((-⌊t⌋ - 1 : ℤ) : ℚ) > 1 / 2) := by rw [e3]; exact lt_irrefl _
    simp only [roundEven, hf]
    rw [if_neg e1, if_neg e2, if_neg e4, if_neg e5]
    by_cases hp : ⌊t⌋ % 2 = 0
    · have hq : ¬ ((-⌊t⌋ - 1) % 2 = 0) := by omega
      rw [if_pos hp, if_neg hq]
      ring
    · have hq : (-⌊t⌋ - 1) % 2 = 0 := by omega
      rw [if_neg hp, if_pos hq]
      ring
  · have b := roundEven_bounds t
    have hne : (roundEven t : ℚ) ≠ t + 1 / 2 ∧ (roundEven t : ℚ) ≠ t - 1 / 2 := by
      have h1 : (⌊t⌋ : ℚ) ≤ t := Int.floor_le t
      have h2 : t < (⌊t⌋ : ℚ) + 1 := Int.lt_floor_add_one t
      simp only [roundEven]
      split_ifs with a b c
      · constructor
        · intro h; linarith
        · intro h; linarith
      · push_cast
        constructor
        · intro h; linarith
        · intro h; linarith
      · exact absurd (le_antisymm (not_lt.mp b) (not_lt.mp a)) htie
      · exact absurd (le_antisymm (not_lt.mp b) (not_lt.mp a)) htie
    apply roundEven_eq_of_near
    · push_cast
      have : t - 1 / 2 < (roundEven t : ℚ) := lt_of_le_of_ne b.1 (Ne.symm hne.2)
      linarith
    · push_cast
      have : (roundEven t : ℚ) < t + 1 / 2 := lt_of_le_of_ne b.2 hne.1
      linarith

/-- The binade exponent depends on the magnitude only. -/
theorem expo_neg (x : ℚ) : expo (-x) = expo x := by
  simp only [expo, abs_neg]

/-- Rounding to binary32 commutes with negation. -/
theorem fl_neg (x : ℚ) : fl (-x) = -fl x := by
  simp only [fl, expo_neg, neg_div, roundEven_neg]
  push_cast
  ring

/-- Zero is a binary32 value. -/
theorem fl_zero : fl 0 = 0 := by
  simp [fl, roundEven]

/-- Evaluation of `fl` at a value whose binade and nearest grid point are
given. -/
theorem fl_eval (x : ℚ) (e n : ℤ) (he : -126 ≤ e) (h1 : (2 : ℚ) ^ e ≤ |x|)
    (h2 : |x| < (2 : ℚ) ^ (e + 1))
    (hlo : ((n : ℚ) - 1 / 2) * 2 ^ (e - 23) < x)
    (hhi : x < ((n : ℚ) + 1 / 2) * 2 ^ (e - 23)) :
    fl x = (n : ℚ) * 2 ^ (e - 23) := by
  have hq : (0 : ℚ) < 2 ^ (e - 23) := zpow_pos (by norm_num) _
  simp only [fl, expo_eq x e he h1 h2]
  rw [roundEven_eq_of_near (x / 2 ^ (e - 23)) n ((lt_div_iff₀ hq).mpr hlo)
    ((div_lt_iff₀ hq).mpr hhi)]

/-- The binade exponent is at least `e` once the magnitude reaches `2^e`. -/
theorem le_expo (x : ℚ) (e : ℤ) (h : (2 : ℚ) ^ e ≤ |x|) : e ≤ expo x := by
  have hpos : 0 < |x| := lt_of_lt_of_le (zpow_pos (by norm_num) e) h
  have a : e ≤ Int.log 2 |x| :=
    (Int.zpow_le_iff_le_log (by norm_num) hpos).mp (by exact_mod_cast h)
  exact le_trans a (le_max_left _ _)

/-- The binade exponent is below `e` when the magnitude is below `2^e` and `e`
is above the subnormal clamp. -/
theorem expo_lt (x : ℚ) (e : ℤ) (he : -126 < e) (hx : x ≠ 0) (h : |x| < (2 : ℚ) ^ e) :
    expo x < e := by
  simp only [expo]
  apply max_lt _ he
  exact (Int.lt_zpow_iff_log_lt (by norm_num) (abs_pos.mpr hx)).mp (by exact_mod_cast h)

/-- A value `m * 2^k` with fewer than 24 significant bits and `k` at or above
the smallest subnormal exponent is a binary32 value: rounding leaves it
unchanged. -/
theorem fl_exact (x : ℚ) (m k : ℤ) (hk : -149 ≤ k) (hm : |m| < 2 ^ 24)
    (hx : x = (m : ℚ) * 2 ^ k) : fl x = x := by
  by_cases h0 : x = 0
  · rw [h0, fl_zero]
  have h2k : (0 : ℚ) < 2 ^ k := zpow_pos (by norm_num) _
  have habs : |x| < (2 : ℚ) ^ (k + 24) := by
    rw [hx, abs_mul, abs_of_pos h2k, zpow_add₀ (by norm_num : (2 : ℚ) ≠ 0), mul_comm]
    apply mul_lt_mul_of_pos_left _ h2k
    have : ((|m| : ℤ) : ℚ) < ((2 ^ 24 : ℤ) : ℚ) := by exact_mod_cast hm
    rw [Int.cast_abs] at this
    exact_mod_cast this
  have hlt : expo x < k + 24 := expo_lt x (k + 24) (by omega) h0 habs
  obtain ⟨d, hd⟩ : ∃ d : ℕ, (d : ℤ) = k + 23 - expo x := ⟨(k + 23 - expo x).toNat, by omega⟩
  have hdiv : x / 2 ^ (expo x - 23) = ((m * 2 ^ d : ℤ) : ℚ) := by
    have hqne : (2 : ℚ) ^ (expo x - 23) ≠ 0 := (quantum_pos x).ne'
    rw [div_eq_iff hqne]
    push_cast
    rw [mul_assoc, ← zpow_natCast, hd, ← zpow_add₀ (by norm_num : (2 : ℚ) ≠ 0)]
    have hk2 : k + 23 - expo x + (expo x - 23) = k := by ring
    rw [hk2]
    exact hx
  simp only [fl]
  rw [hdiv, roundEven_intCast, ← hdiv]
  exact div_mul_cancel₀ x (quantum_pos x).ne'

/-- Every rounded value lies on the grid of its binade, and on every finer
grid. -/
theorem fl_on_grid (x : ℚ) (e : ℤ) (he : e ≤ expo x) :
    ∃ n : ℤ, fl x = (n : ℚ) * 2 ^ (e - 23) := by
  obtain ⟨d, hd⟩ : ∃ d : ℕ, (d : ℤ) = expo x - e := ⟨(expo x - e).toNat, by omega⟩
  refine ⟨roundEven (x / 2 ^ (expo x - 23)) * 2 ^ d, ?_⟩
  simp only [fl]
  push_cast
  rw [mul_assoc, ← zpow_natCast, hd, ← zpow_add₀ (by norm_num : (2 : ℚ) ≠ 0)]
  congr 2
  ring


/-- Rounding keeps the sign of a nonnegative value. -/
theorem fl_nonneg {x : ℚ} (h : 0 ≤ x) : 0 ≤ fl x := by
  simp only [fl]
  apply mul_nonneg _ (quantum_pos x).le
  have h0 : roundEven 0 ≤ roundEven (x / 2 ^ (expo x - 23)) :=
    roundEven_mono (div_nonneg h (quantum_pos x).le)
  rw [show roundEven 0 = 0 from roundEven_intCast 0] at h0
  exact_mod_cast h0

/-- The magnitude of a value is below the top of its binade. -/
theorem abs_lt_zpow_expo (x : ℚ) : |x| < (2 : ℚ) ^ (expo x + 1) := by
  rcases eq_or_lt_of_le (abs_nonneg x) with h0 | hpos
  · rw [← h0]
    exact zpow_pos (by norm_num) _
  · have h1 : |x| < ((2 : ℕ) : ℚ) ^ (Int.log 2 |x| + 1) :=
      Int.lt_zpow_succ_log_self (by norm_num) |x|
    have h2 : ((2 : ℕ) : ℚ) ^ (Int.log 2 |x| + 1) ≤ (2 : ℚ) ^ (expo x + 1) := by
      push_cast
      apply zpow_le_zpow_right₀ (by norm_num)
      have := le_max_left (Int.log 2 |x|) (-126)
      simp only [expo]
      omega
    exact lt_of_lt_of_le h1 h2

/-- `2^24` grid steps span a binade up to its top. -/
theorem two_pow24_mul (e : ℤ) : ((2 ^ 24 : ℤ) : ℚ) * 2 ^ (e - 23) = 2 ^ (e + 1) := by
  have h : ((2 ^ 24 : ℤ) : ℚ) = (2 : ℚ) ^ (24 : ℤ) := by norm_num
  rw [h, ← zpow_add₀ (by norm_num : (2 : ℚ) ≠ 0)]
  congr 1
  ring

/-- `2^23` grid steps reach the bottom of the binade. -/
theorem two_pow23_mul (e : ℤ) : ((2 ^ 23 : ℤ) : ℚ) * 2 ^ (e - 23) = 2 ^ e := by
  have h : ((2 ^ 23 : ℤ) : ℚ) = (2 : ℚ) ^ (23 : ℤ) := by norm_num
  rw [h, ← zpow_add₀ (by norm_num : (2 : ℚ) ≠ 0)]
  congr 1
  ring

/-- A rounded value does not exceed the top of the binade of its argument. -/
theorem fl_le_zpow (x : ℚ) : fl x ≤ (2 : ℚ) ^ (expo x + 1) := by
  have hq := quantum_pos x
  have hx : x / 2 ^ (expo x - 23) ≤ ((2 ^ 24 : ℤ) : ℚ) := by
    rw [div_le_iff₀ hq, two_pow24_mul]
    exact le_trans (le_abs_self x) (abs_lt_zpow_expo x).le
  have hr := roundEven_mono hx
  rw [roundEven_intCast] at hr
  have hr2 : (roundEven (x / 2 ^ (expo x - 23)) : ℚ) ≤ ((2 ^ 24 : ℤ) : ℚ) := by
    exact_mod_cast hr
  simp only [fl]
  calc (roundEven (x / 2 ^ (expo x - 23)) : ℚ) * 2 ^ (expo x - 23)
      ≤ ((2 ^ 24 : ℤ) : ℚ) * 2 ^ (expo x - 23) := mul_le_mul_of_nonneg_right hr2 hq.le
    _ = 2 ^ (expo x + 1) := two_pow24_mul _

/-- A rounded value does not fall below the bottom of the binade of its
argument. -/
theorem zpow_le_fl (x : ℚ) (h : (2 : ℚ) ^ expo x ≤ x) : (2 : ℚ) ^ expo x ≤ fl x := by
  have hq := quantum_pos x
  have e : ((2 ^ 23 : ℤ) : ℚ) * 2 ^ (expo x - 23) = 2 ^ expo x := two_pow23_mul _
  have hx : ((2 ^ 23 : ℤ) : ℚ) ≤ x / 2 ^ (expo x - 23) := by
    rw [le_div_iff₀ hq, e]
    exact h
  have hr := roundEven_mono hx
  rw [roundEven_intCast] at hr
  have hr2 : ((2 ^ 23 : ℤ) : ℚ) ≤ (roundEven (x / 2 ^ (expo x - 23)) : ℚ) := by
    exact_mod_cast hr
  simp only [fl]
  calc (2 : ℚ) ^ expo x = ((2 ^ 23 : ℤ) : ℚ) * 2 ^ (expo x - 23) := e.symm
    _ ≤ (roundEven (x / 2 ^ (expo x - 23)) : ℚ) * 2 ^ (expo x - 23) :=
      mul_le_mul_of_nonneg_right hr2 hq.le

/-- Rounding is monotone on nonnegative values. -/
theorem fl_mono_nonneg {x y : ℚ} (hx : 0 ≤ x) (h : x ≤ y) : fl x ≤ fl y := by
  rcases eq_or_lt_of_le hx with h0 | hpos
  · rw [← h0, fl_zero]
    exact fl_nonneg (le_trans hx h)
  have hy : 0 < y := lt_of_lt_of_le hpos h
  have habs : |x| ≤ |y| := by
    rw [abs_of_pos hpos, abs_of_pos hy]
    exact h
  have hlog : Int.log 2 |x| ≤ Int.log 2 |y| :=
    Int.log_mono_right (abs_pos.mpr hpos.ne') habs
  have hexp : expo x ≤ expo y := max_le_max hlog (le_refl _)
  rcases eq_or_lt_of_le hexp with he | hlt
  · simp only [fl, he]
    apply mul_le_mul_of_nonneg_right _ (quantum_pos y).le
    have : roundEven (x / 2 ^ (expo y - 23)) ≤ roundEven (y / 2 ^ (expo y - 23)) :=
      roundEven_mono (div_le_div_of_nonneg_right h (quantum_pos y).le)
    exact_mod_cast this
  · have hge := expo_ge x
    have hy_log : expo y = Int.log 2 |y| := by
      simp only [expo] at hlt hge ⊢
      apply max_eq_left
      by_contra hc
      rw [max_eq_right (le_of_lt (not_le.mp hc))] at hlt
      omega
    have hbase : (2 : ℚ) ^ expo y ≤ y := by
      have := Int.zpow_log_le_self (b := 2) (r := |y|) (by norm_num) (abs_pos.mpr hy.ne')
      rw [hy_log]
      rw [abs_of_pos hy] at this ⊢
      exact_mod_cast this
    calc fl x ≤ (2 : ℚ) ^ (expo x + 1) := fl_le_zpow x
      _ ≤ (2 : ℚ) ^ expo y := zpow_le_zpow_right₀ (by norm_num) (by omega)
      _ ≤ fl y := zpow_le_fl y hbase

/-- Rounding to binary32 is monotone. -/
theorem fl_mono {x y : ℚ} (h : x ≤ y) : fl x ≤ fl y := by
  rcases le_or_lt 0 x with hx | hx
  · exact fl_mono_nonneg hx h
  rcases le_or_lt y 0 with hy | hy
  · have h1 : fl (-y) ≤ fl (-x) := fl_mono_nonneg (by linarith) (by linarith)
    rw [fl_neg, fl_neg] at h1
    linarith
  · have h1 : 0 ≤ fl y := fl_nonneg hy.le
    have h2 : 0 ≤ fl (-x) := fl_nonneg (by linarith)
    rw [fl_neg] at h2
    linarith

/-- Every binary32 value is a multiple of the smallest subnormal `2^(-149)`. -/
theorem grid_of_fl_eq {x : ℚ} (h : fl x = x) : ∃ n : ℤ, x = (n : ℚ) * 2 ^ (-149 : ℤ) := by
  obtain ⟨n, hn⟩ := fl_on_grid x (-126) (expo_ge x)
  exact ⟨n, by rw [← h, hn]; norm_num⟩

/-- A positive multiple of `2^(-149)` does not round to zero. -/
theorem fl_pos_of_grid {x : ℚ} (hx : 0 < x) (n : ℤ) (hn : x = (n : ℚ) * 2 ^ (-149 : ℤ)) :
    0 < fl x := by
  have hq : (0 : ℚ) < 2 ^ (-149 : ℤ) := zpow_pos (by norm_num) _
  have hn1 : (1 : ℤ) ≤ n := by
    by_contra hc
    have : (n : ℚ) ≤ 0 := by exact_mod_cast (by omega : n ≤ 0)
    have : x ≤ 0 := by rw [hn]; exact mul_nonpos_of_nonpos_of_nonneg this hq.le
    linarith
  have hle : (2 : ℚ) ^ (-149 : ℤ) ≤ x := by
    rw [hn]
    have : ((1 : ℤ) : ℚ) ≤ (n : ℚ) := by exact_mod_cast hn1
    calc (2 : ℚ) ^ (-149 : ℤ) = (1 : ℚ) * 2 ^ (-149 : ℤ) := (one_mul _).symm
      _ ≤ (n : ℚ) * 2 ^ (-149 : ℤ) := mul_le_mul_of_nonneg_right (by simpa using this) hq.le
  have he : fl ((2 : ℚ) ^ (-149 : ℤ)) = 2 ^ (-149 : ℤ) :=
    fl_exact _ 1 (-149) (le_refl _) (by norm_num) (by norm_num)
  have := fl_mono hle
  rw [he] at this
  linarith

/-- The difference of two distinct binary32 values does not round to zero:
positive case. -/
theorem fl_sub_pos {a b : ℚ} (ha : fl a = a) (hb : fl b = b) (h : b < a) : 0 < fl (a - b) := by
  obtain ⟨m, hm⟩ := grid_of_fl_eq ha
  obtain ⟨n, hn⟩ := grid_of_fl_eq hb
  exact fl_pos_of_grid (by linarith) (m - n) (by rw [hm, hn]; push_cast; ring)

/-- The difference of two distinct binary32 values does not round to zero:
negative case. -/
theorem fl_sub_neg {a b : ℚ} (ha : fl a = a) (hb : fl b = b) (h : a < b) : fl (a - b) < 0 := by
  have h1 := fl_sub_pos hb ha h
  have e : a - b = -(b - a) := by ring
  rw [e, fl_neg]
  linarith

/-- Rounding is idempotent: every rounded value is a binary32 value. -/
theorem fl_fl (x : ℚ) : fl (fl x) = fl x := by
  have hq := quantum_pos x
  have hup := fl_le_zpow x
  have hlo : -(2 : ℚ) ^ (expo x + 1) ≤ fl x := by
    have := fl_le_zpow (-x)
    rw [fl_neg, expo_neg] at this
    linarith
  have e24 : ((2 ^ 24 : ℤ) : ℚ) * 2 ^ (expo x - 23) = 2 ^ (expo x + 1) := two_pow24_mul _
  have hge := expo_ge x
  by_cases ht : fl x = 2 ^ (expo x + 1)
  · rw [ht]
    exact fl_exact _ 1 (expo x + 1) (by omega) (by norm_num) (by norm_num)
  by_cases hb : fl x = -(2 : ℚ) ^ (expo x + 1)
  · rw [hb]
    exact fl_exact _ (-1) (expo x + 1) (by omega) (by norm_num) (by norm_num)
  apply fl_exact (fl x) (roundEven (x / 2 ^ (expo x - 23))) (expo x - 23) (by omega) _ rfl
  have h1 : (roundEven (x / 2 ^ (expo x - 23)) : ℚ) < ((2 ^ 24 : ℤ) : ℚ) := by
    have : fl x < 2 ^ (expo x + 1) := lt_of_le_of_ne hup ht
    rw [← e24] at this
    simp only [fl] at this
    exact lt_of_mul_lt_mul_right this hq.le
  have h2 : ((-(2 ^ 24) : ℤ) : ℚ) < (roundEven (x / 2 ^ (expo x - 23)) : ℚ) := by
    have : -(2 : ℚ) ^ (expo x + 1) < fl x := lt_of_le_of_ne hlo (Ne.symm hb)
    rw [← e24, ← neg_mul] at this
    simp only [fl] at this
    have := lt_of_mul_lt_mul_right this hq.le
    push_cast at this ⊢
    exact this
  have h3 : roundEven (x / 2 ^ (expo x - 23)) < 2 ^ 24 := by exact_mod_cast h1
  have h4 : -(2 ^ 24) < roundEven (x / 2 ^ (expo x - 23)) := by exact_mod_cast h2
  exact abs_lt.mpr ⟨h4, h3⟩

/-- A binary32 value of magnitude at least `2^e` lies on the grid of spacing
`2^(e-23)`. -/
theorem grid_of_fl_ge {x : ℚ} (h : fl x = x) (e : ℤ) (hx : (2 : ℚ) ^ e ≤ |x|) :
    ∃ n : ℤ, x = (n : ℚ) * 2 ^ (e - 23) := by
  obtain ⟨n, hn⟩ := fl_on_grid x e (le_expo x e hx)
  exact ⟨n, by rw [← h, hn]⟩

/-- A grid value `m * 2^k` of magnitude below `2^(k+24)` is a binary32 value. -/
theorem fl_exact_of_lt (x : ℚ) (m k : ℤ) (hk : -149 ≤ k) (hx : x = (m : ℚ) * 2 ^ k)
    (hb : |x| < (2 : ℚ) ^ (k + 24)) : fl x = x := by
  have h2k : (0 : ℚ) < 2 ^ k := zpow_pos (by norm_num) _
  apply fl_exact x m k hk _ hx
  rw [hx, abs_mul, abs_of_pos h2k, zpow_add₀ (by norm_num : (2 : ℚ) ≠ 0), mul_comm] at hb
  have h1 : |(m : ℚ)| < (2 : ℚ) ^ (24 : ℤ) := lt_of_mul_lt_mul_left hb h2k.le
  have h2 : ((|m| : ℤ) : ℚ) < ((2 ^ 24 : ℤ) : ℚ) := by
    rw [Int.cast_abs]
    norm_num at h1 ⊢
    exact h1
  exact_mod_cast h2

/-- Evaluation of `fl` at a positive value whose binade and nearest grid point
are given. -/
theorem fl_eval_pos (x : ℚ) (e n : ℤ) (he : -126 ≤ e) (h1 : (2 : ℚ) ^ e ≤ x)
    (h2 : x < (2 : ℚ) ^ (e + 1))
    (hlo : ((n : ℚ) - 1 / 2) * 2 ^ (e - 23) < x)
    (hhi : x < ((n : ℚ) + 1 / 2) * 2 ^ (e - 23)) :
    fl x = (n : ℚ) * 2 ^ (e - 23) := by
  have hpos : 0 < x := lt_of_lt_of_le (zpow_pos (by norm_num) e) h1
  exact fl_eval x e n he (by rw [abs_of_pos hpos]; exact h1)
    (by rw [abs_of_pos hpos]; exact h2) hlo hhi

/-- The constant `PADDLE_HEIGHT / 3.0f`. -/
theorem third_eq : div 100 3 = 8738133 / 262144 := by
  simp only [div]
  rw [fl_eval_pos (100 / 3) 5 8738133 (by norm_num) (by norm_num) (by norm_num)
    (by norm_num) (by norm_num)]
  norm_num

/-- The constant `2.0f * PADDLE_HEIGHT / 3.0f`. -/
theorem two_thirds_eq : div (mul 2 100) 3 = 8738133 / 131072 := by
  have h200 : mul 2 100 = 200 := by
    simp only [mul]
    rw [fl_exact (2 * 100) 200 0 (by norm_num) (by norm_num) (by norm_num)]
    norm_num
  simp only [div, h200]
  rw [fl_eval_pos (200 / 3) 6 8738133 (by norm_num) (by norm_num) (by norm_num)
    (by norm_num) (by norm_num)]
  norm_num

/-- When the computed edges of the two boxes overlap on both axes,
`checkPaddleCollision` returns the zone selected by the computed `ballBottom`
against the two computed thresholds, with the penetration selected by the sign
of the ball's horizontal velocity. -/
theorem checkPaddleCollision_overlap32 (ball : Pong.Ball) (paddle : Paddle)
    (hx1 : ball.position.x < add paddle.position.x 10)
    (hx2 : paddle.position.x < add ball.position.x 15)
    (hy1 : ball.position.y < add paddle.position.y 100)
    (hy2 : paddle.position.y < add ball.position.y 15) :
    checkPaddleCollision ball paddle =
      ⟨if add ball.position.y 15 < sub (add paddle.position.y 100) (div (mul 2 100) 3)
          then collisionType.Top
        else if sub (add paddle.position.y 100) (div (mul 2 100) 3) < add ball.position.y 15 ∧
            add ball.position.y 15 < sub (add paddle.position.y 100) (div 100 3)
          then collisionType.Middle
        else collisionType.Bottom,
       if ball.velocity.x < 0 then sub (add paddle.position.x 10) ball.position.x
        else if ball.velocity.x > 0 then sub paddle.position.x (add ball.position.x 15)
        else 0⟩ := by
  simp only [checkPaddleCollision, BALL_WIDTH, BALL_HEIGHT, PADDLE_WIDTH, PADDLE_HEIGHT]
  simp only [Int.cast_ofNat, ge_iff_le, gt_iff_lt]
  rw [if_neg (not_le.mpr hx1), if_neg (not_le.mpr hx2), if_neg (not_le.mpr hy1),
    if_neg (not_le.mpr hy2)]
  simp only [hy2, true_and]
  split_ifs <;> rfl

/-- A value halfway between two integers rounds to the even one. -/
theorem roundEven_tie (n : ℤ) :
    roundEven ((n : ℚ) + 1 / 2) = if n % 2 = 0 then n else n + 1 := by
  have hf : ⌊(n : ℚ) + 1 / 2⌋ = n := by
    rw [Int.floor_eq_iff]
    constructor <;> linarith
  have e : (n : ℚ) + 1 / 2 - (n : ℚ) = 1 / 2 := by ring
  simp only [roundEven, hf, e]
  rw [if_neg (lt_irrefl _), if_neg (lt_irrefl _)]

/-- Evaluation of `fl` at a positive value halfway between two grid points of
its binade. -/
theorem fl_eval_tie_pos (x : ℚ) (e n : ℤ) (he : -126 ≤ e) (h1 : (2 : ℚ) ^ e ≤ x)
    (h2 : x < (2 : ℚ) ^ (e + 1)) (hx : x = ((n : ℚ) + 1 / 2) * 2 ^ (e - 23)) :
    fl x = (((if n % 2 = 0 then n else n + 1 : ℤ)) : ℚ) * 2 ^ (e - 23) := by
  have hpos : 0 < x := lt_of_lt_of_le (zpow_pos (by norm_num) e) h1
  have hq : (0 : ℚ) < 2 ^ (e - 23) := zpow_pos (by norm_num) _
  have hexp : expo x = e :=
    expo_eq x e he (by rw [abs_of_pos hpos]; exact h1) (by rw [abs_of_pos hpos]; exact h2)
  have hdiv : x / 2 ^ (e - 23) = (n : ℚ) + 1 / 2 := by
    rw [div_eq_iff hq.ne']
    exact hx
  simp only [fl, hexp]
  rw [hdiv, roundEven_tie]

/-- Evaluation of `fl` at a negative value whose binade and nearest grid point
are given. -/
theorem fl_eval_neg (x : ℚ) (e n : ℤ) (he : -126 ≤ e) (h1 : (2 : ℚ) ^ e ≤ -x)
    (h2 : -x < (2 : ℚ) ^ (e + 1))
    (hlo : ((n : ℚ) - 1 / 2) * 2 ^ (e - 23) < x)
    (hhi : x < ((n : ℚ) + 1 / 2) * 2 ^ (e - 23)) :
    fl x = (n : ℚ) * 2 ^ (e - 23) := by
  have hneg : x < 0 := by
    have := lt_of_lt_of_le (zpow_pos (by norm_num : (0 : ℚ) < 2) e) h1
    linarith
  exact fl_eval x e n he (by rw [abs_of_neg hneg]; exact h1)
    (by rw [abs_of_neg hneg]; exact h2) hlo hhi

end F32

/-! ## Claim C5 -/

/-- C4 as stated fails in binary32 on the boundary of the top third.  With the
paddle at `(50, 620)` and the ball at `(55, 638.333313...)` (the binary32 value
`10458453 / 2^14`) moving left, the ball's box lies inside the top third
(`ballBottom = 653.333313... <= 620 + 100/3`, also with the third computed in
binary32) and straddles the paddle's right edge, yet the computed
`paddleRangeUpper` equals `ballBottom` and the reported zone is `Bottom`. -/
theorem top_third_binary32_counterexample :
    ((620 : ℚ) ≤ 10458453 / 16384 ∧
      F32.add (10458453 / 16384) 15 ≤ (620 : ℚ) + 100 / 3 ∧
      F32.add (10458453 / 16384) 15 ≤ F32.add 620 (F32.div 100 3) ∧
      (55 : ℚ) < F32.add 50 10 ∧
      F32.add 50 10 ≤ F32.add 55 15 ∧
      (-(5452595 / 8388608) : ℚ) < 0) ∧
    F32.checkPaddleCollision (Ball.mk ⟨-(5452595 / 8388608), 0⟩ ⟨55, 10458453 / 16384⟩)
        (Paddle.mk ⟨50, 620⟩ ⟨0, 0⟩) = ⟨collisionType.Bottom, 5⟩ ∧
    (F32.checkPaddleCollision (Ball.mk ⟨-(5452595 / 8388608), 0⟩ ⟨55, 10458453 / 16384⟩)
        (Paddle.mk ⟨50, 620⟩ ⟨0, 0⟩)).type ≠ collisionType.Top := by
  have e1 : F32.add 50 10 = 60 := by
    simp only [F32.add]
    refine (F32.fl_exact _ (60) (0) ?_ ?_ ?_).trans ?_ <;> norm_num
  have e2 : F32.add 55 15 = 70 := by
    simp only [F32.add]
    refine (F32.fl_exact _ (70) (0) ?_ ?_ ?_).trans ?_ <;> norm_num
  have e3 : F32.add 620 100 = 720 := by
    simp only [F32.add]
    refine (F32.fl_exact _ (720) (0) ?_ ?_ ?_).trans ?_ <;> norm_num
  have e4 : F32.add (10458453 / 16384) 15 = 10704213 / 16384 := by
    simp only [F32.add]
    refine (F32.fl_exact _ (10704213) (-14) ?_ ?_ ?_).trans ?_ <;> norm_num
  have e5 : F32.sub 720 (8738133 / 131072) = 10704213 / 16384 := by
    simp only [F32.sub]
    refine (F32.fl_eval_pos _ (9) (10704213) ?_ ?_ ?_ ?_ ?_).trans ?_ <;> norm_num
  have e6 : F32.sub 720 (8738133 / 262144) = 11250347 / 16384 := by
    simp only [F32.sub]
    refine (F32.fl_eval_pos _ (9) (11250347) ?_ ?_ ?_ ?_ ?_).trans ?_ <;> norm_num
  have e7 : F32.add 620 (8738133 / 262144) = 10704213 / 16384 := by
    simp only [F32.add]
    refine (F32.fl_eval_pos _ (9) (10704213) ?_ ?_ ?_ ?_ ?_).trans ?_ <;> norm_num
  have e8 : F32.sub 60 55 = 5 := by
    simp only [F32.sub]
    refine (F32.fl_exact _ (5) (0) ?_ ?_ ?_).trans ?_ <;> norm_num
  have hc : F32.checkPaddleCollision
      (Ball.mk ⟨-(5452595 / 8388608), 0⟩ ⟨55, 10458453 / 16384⟩)
      (Paddle.mk ⟨50, 620⟩ ⟨0, 0⟩) = ⟨collisionType.Bottom, 5⟩ := by
    rw [F32.checkPaddleCollision_overlap32 _ _ (by show (55 : ℚ) < F32.add 50 10; rw [e1]; norm_num)
      (by show (50 : ℚ) < F32.add 55 15; rw [e2]; norm_num)
      (by show (10458453 / 16384 : ℚ) < F32.add 620 100; rw [e3]; norm_num)
      (by show (620 : ℚ) < F32.add (10458453 / 16384) 15; rw [e4]; norm_num)]
    show (⟨if F32.add (10458453 / 16384) 15
          < F32.sub (F32.add 620 100) (F32.div (F32.mul 2 100) 3) then collisionType.Top
        else if F32.sub (F32.add 620 100) (F32.div (F32.mul 2 100) 3)
            < F32.add (10458453 / 16384) 15 ∧
          F32.add (10458453 / 16384) 15 < F32.sub (F32.add 620 100) (F32.div 100 3)
          then collisionType.Middle
        else collisionType.Bottom,
      if (-(5452595 / 8388608) : ℚ) < 0 then F32.sub (F32.add 50 10) 55
        else if (-(5452595 / 8388608) : ℚ) > 0 then F32.sub 50 (F32.add 55 15)
        else 0⟩ : Contact) = _
    rw [e4, e3, e1, F32.two_thirds_eq, F32.third_eq, e5, e6, e8]
    norm_num
  refine ⟨⟨by norm_num, ?_, ?_, ?_, ?_, by norm_num⟩, hc, ?_⟩
  · rw [e4]
    norm_num
  · rw [e4, F32.third_eq, e7]
  · rw [e1]
    norm_num
  · rw [e1, e2]
    norm_num
  · rw [hc]
    decide

/-- C4, amended: top-third hit, in binary32.  For every paddle and every ball
(with a binary32 `position.x`) whose box overlaps the paddle's box on both
axes, as the program computes the edges, whose `ballBottom` is strictly below
the program's `paddleRangeUpper = paddleBottom - 2.0f*PADDLE_HEIGHT/3.0f`, and
whose `velocity.x < 0`, `checkPaddleCollision` returns type `Top` with
penetration `paddleRight - ballLeft` (rounded to binary32), and that
penetration is positive.  A ball inside the paddle's top third that straddles
its right edge is such a ball. -/
theorem top_third_binary32 (ball : Ball) (paddle : Paddle)
    (hF : F32.fl ball.position.x = ball.position.x)
    (hx1 : ball.position.x < F32.add paddle.position.x 10)
    (hx2 : paddle.position.x < F32.add ball.position.x 15)
    (hy1 : ball.position.y < F32.add paddle.position.y 100)
    (hy2 : paddle.position.y < F32.add ball.position.y 15)
    (hThird : F32.add ball.position.y 15
      < F32.sub (F32.add paddle.position.y 100) (F32.div (F32.mul 2 100) 3))
    (hv : ball.velocity.x < 0) :
    F32.checkPaddleCollision ball paddle
      = ⟨collisionType.Top, F32.sub (F32.add paddle.position.x 10) ball.position.x⟩ ∧
    0 < (F32.checkPaddleCollision ball paddle).penetration := by
  have h := F32.checkPaddleCollision_overlap32 ball paddle hx1 hx2 hy1 hy2
  rw [if_pos hThird, if_pos hv] at h
  rw [h]
  refine ⟨rfl, ?_⟩
  show 0 < F32.sub (F32.add paddle.position.x 10) ball.position.x
  exact F32.fl_sub_pos (F32.fl_fl _) hF hx1

/-- Witness for C4: paddle at `(50, 310)`, ball at `(55, 312)` moving left;
`ballBottom = 327` is below `paddleRangeUpper = 343.333343...`. -/
theorem top_third_binary32_witness :
    F32.checkPaddleCollision (Ball.mk ⟨-(5452595 / 8388608), 0⟩ ⟨55, 312⟩)
        (Paddle.mk ⟨50, 310⟩ ⟨0, 0⟩)
      = ⟨collisionType.Top, F32.sub (F32.add 50 10) 55⟩ ∧
    0 < (F32.checkPaddleCollision (Ball.mk ⟨-(5452595 / 8388608), 0⟩ ⟨55, 312⟩)
        (Paddle.mk ⟨50, 310⟩ ⟨0, 0⟩)).penetration := by
  have e1 : F32.add 50 10 = 60 := by
    simp only [F32.add]
    refine (F32.fl_exact _ (60) (0) ?_ ?_ ?_).trans ?_ <;> norm_num
  have e2 : F32.add 55 15 = 70 := by
    simp only [F32.add]
    refine (F32.fl_exact _ (70) (0) ?_ ?_ ?_).trans ?_ <;> norm_num
  have e3 : F32.add 310 100 = 410 := by
    simp only [F32.add]
    refine (F32.fl_exact _ (410) (0) ?_ ?_ ?_).trans ?_ <;> norm_num
  have e4 : F32.add 312 15 = 327 := by
    simp only [F32.add]
    refine (F32.fl_exact _ (327) (0) ?_ ?_ ?_).trans ?_ <;> norm_num
  have e5 : F32.sub 410 (8738133 / 131072) = 11250347 / 32768 := by
    simp only [F32.sub]
    refine (F32.fl_eval_pos _ (8) (11250347) ?_ ?_ ?_ ?_ ?_).trans ?_ <;> norm_num
  have hF : F32.fl 55 = 55 := F32.fl_exact 55 55 0 (by norm_num) (by norm_num) (by norm_num)
  exact top_third_binary32 (Ball.mk ⟨-(5452595 / 8388608), 0⟩ ⟨55, 312⟩)
    (Paddle.mk ⟨50, 310⟩ ⟨0, 0⟩) hF
    (by show (55 : ℚ) < F32.add 50 10; rw [e1]; norm_num)
    (by show (50 : ℚ) < F32.add 55 15; rw [e2]; norm_num)
    (by show (312 : ℚ) < F32.add 310 100; rw [e3]; norm_num)
    (by show (310 : ℚ) < F32.add 312 15; rw [e4]; norm_num)
    (by
      show F32.add 312 15 < F32.sub (F32.add 310 100) (F32.div (F32.mul 2 100) 3)
      rw [e4, e3, F32.two_thirds_eq, e5]
      norm_num)
    (by norm_num)

/-! ## Claim C6 -/

/-- Binary32: a ball whose left edge is at or beyond the computed right edge of
the paddle is rejected by the first test. -/
theorem checkPaddleCollision_right_of32 (ball : Ball) (paddle : Paddle)
    (h : F32.add paddle.position.x 10 ≤ ball.position.x) :
    F32.checkPaddleCollision ball paddle = ⟨collisionType.None, 0⟩ := by
  simp only [F32.checkPaddleCollision, PADDLE_WIDTH, Contact.zero]
  simp only [Int.cast_ofNat, ge_iff_le]
  rw [if_pos h]

/-- Binary32: a ball whose computed right edge is at or before the paddle's
left edge is rejected by the second test. -/
theorem checkPaddleCollision_left_of32 (ball : Ball) (paddle : Paddle)
    (h : F32.add ball.position.x 15 ≤ paddle.position.x) :
    F32.checkPaddleCollision ball paddle = ⟨collisionType.None, 0⟩ := by
  simp only [F32.checkPaddleCollision, PADDLE_WIDTH, BALL_WIDTH, Contact.zero]
  simp only [Int.cast_ofNat, ge_iff_le]
  rw [if_pos h]
  split_ifs <;> rfl

/-- The position written by the binary32 `CollideWithPaddle`: only `x` moves,
by the penetration, and the sum is rounded. -/
theorem CollideWithPaddle_position32 (b : Ball) (c : Contact) :
    (F32.Ball.CollideWithPaddle b c).position
      = ⟨F32.add b.position.x c.penetration, b.position.y⟩ := by
  simp only [F32.Ball.CollideWithPaddle]
  split_ifs <;> rfl

/-- C6 as stated fails in binary32.  Paddle at `(50, 310)`, ball at
`(49.0000496..., 340)` (the binary32 value `12845069 / 2^18`) moving right:
the boxes overlap, the contact is `Middle` with penetration
`paddleLeft - ballRight = -14.0000458...`, the resolved ball is at
`x = 35.0000038...`, its right edge `50.0000038...` is not at `paddleLeft = 50`,
and `checkPaddleCollision` on the resolved ball reports `Middle`, not `None`. -/
theorem push_out_binary32_counterexample :
    ((12845069 / 262144 : ℚ) < F32.add 50 10 ∧
      (50 : ℚ) < F32.add (12845069 / 262144) 15 ∧
      (340 : ℚ) < F32.add 310 100 ∧
      (310 : ℚ) < F32.add 340 15 ∧
      (5452595 / 8388608 : ℚ) ≠ 0) ∧
    F32.checkPaddleCollision (Ball.mk ⟨5452595 / 8388608, 0⟩ ⟨12845069 / 262144, 340⟩)
        (Paddle.mk ⟨50, 310⟩ ⟨0, 0⟩) = ⟨collisionType.Middle, -(917507 / 65536)⟩ ∧
    F32.Ball.CollideWithPaddle (Ball.mk ⟨5452595 / 8388608, 0⟩ ⟨12845069 / 262144, 340⟩)
        (F32.checkPaddleCollision (Ball.mk ⟨5452595 / 8388608, 0⟩ ⟨12845069 / 262144, 340⟩)
          (Paddle.mk ⟨50, 310⟩ ⟨0, 0⟩))
      = Ball.mk ⟨-(5452595 / 8388608), 0⟩ ⟨9175041 / 262144, 340⟩ ∧
    F32.add (9175041 / 262144) 15 ≠ 50 ∧
    (F32.checkPaddleCollision
        (F32.Ball.CollideWithPaddle (Ball.mk ⟨5452595 / 8388608, 0⟩ ⟨12845069 / 262144, 340⟩)
          (F32.checkPaddleCollision
            (Ball.mk ⟨5452595 / 8388608, 0⟩ ⟨12845069 / 262144, 340⟩)
            (Paddle.mk ⟨50, 310⟩ ⟨0, 0⟩)))
        (Paddle.mk ⟨50, 310⟩ ⟨0, 0⟩)).type = collisionType.Middle := by
  have e1 : F32.add 50 10 = 60 := by
    simp only [F32.add]
    refine (F32.fl_exact _ (60) (0) ?_ ?_ ?_).trans ?_ <;> norm_num
  have e2 : F32.add (12845069 / 262144) 15 = 4194307 / 65536 := by
    simp only [F32.add]
    refine (F32.fl_eval_tie_pos _ (6) (8388614) ?_ ?_ ?_ ?_).trans ?_ <;> norm_num
  have e3 : F32.add 310 100 = 410 := by
    simp only [F32.add]
    refine (F32.fl_exact _ (410) (0) ?_ ?_ ?_).trans ?_ <;> norm_num
  have e4 : F32.add 340 15 = 355 := by
    simp only [F32.add]
    refine (F32.fl_exact _ (355) (0) ?_ ?_ ?_).trans ?_ <;> norm_num
  have e5 : F32.sub 410 (8738133 / 131072) = 11250347 / 32768 := by
    simp only [F32.sub]
    refine (F32.fl_eval_pos _ (8) (11250347) ?_ ?_ ?_ ?_ ?_).trans ?_ <;> norm_num
  have e6 : F32.sub 410 (8738133 / 262144) = 12342613 / 32768 := by
    simp only [F32.sub]
    refine (F32.fl_eval_pos _ (8) (12342613) ?_ ?_ ?_ ?_ ?_).trans ?_ <;> norm_num
  have e7 : F32.sub 50 (4194307 / 65536) = -(917507 / 65536) := by
    simp only [F32.sub]
    refine (F32.fl_exact _ (-917507) (-16) ?_ ?_ ?_).trans ?_ <;> norm_num
  have e8 : F32.add (12845069 / 262144) (-(917507 / 65536)) = 9175041 / 262144 := by
    simp only [F32.add]
    refine (F32.fl_exact _ (9175041) (-18) ?_ ?_ ?_).trans ?_ <;> norm_num
  have e9 : F32.add (9175041 / 262144) 15 = 13107201 / 262144 := by
    simp only [F32.add]
    refine (F32.fl_exact _ (13107201) (-18) ?_ ?_ ?_).trans ?_ <;> norm_num
  have hc : F32.checkPaddleCollision
      (Ball.mk ⟨5452595 / 8388608, 0⟩ ⟨12845069 / 262144, 340⟩)
      (Paddle.mk ⟨50, 310⟩ ⟨0, 0⟩) = ⟨collisionType.Middle, -(917507 / 65536)⟩ := by
    rw [F32.checkPaddleCollision_overlap32 _ _
      (by show (12845069 / 262144 : ℚ) < F32.add 50 10; rw [e1]; norm_num)
      (by show (50 : ℚ) < F32.add (12845069 / 262144) 15; rw [e2]; norm_num)
      (by show (340 : ℚ) < F32.add 310 100; rw [e3]; norm_num)
      (by show (310 : ℚ) < F32.add 340 15; rw [e4]; norm_num)]
    show (⟨if F32.add 340 15
          < F32.sub (F32.add 310 100) (F32.div (F32.mul 2 100) 3) then collisionType.Top
        else if F32.sub (F32.add 310 100) (F32.div (F32.mul 2 100) 3) < F32.add 340 15 ∧
          F32.add 340 15 < F32.sub (F32.add 310 100) (F32.div 100 3)
          then collisionType.Middle
        else collisionType.Bottom,
      if (5452595 / 8388608 : ℚ) < 0 then F32.sub (F32.add 50 10) (12845069 / 262144)
        else if (5452595 / 8388608 : ℚ) > 0
          then F32.sub 50 (F32.add (12845069 / 262144) 15)
        else 0⟩ : Contact) = _
    rw [e4, e3, e2, F32.two_thirds_eq, F32.third_eq, e5, e6, e7]
    norm_num
  have hr : F32.Ball.CollideWithPaddle
      (Ball.mk ⟨5452595 / 8388608, 0⟩ ⟨12845069 / 262144, 340⟩)
      (⟨collisionType.Middle, -(917507 / 65536)⟩ : Contact)
      = Ball.mk ⟨-(5452595 / 8388608), 0⟩ ⟨9175041 / 262144, 340⟩ := by
    simp only [F32.Ball.CollideWithPaddle]
    rw [if_neg (by decide), if_neg (by decide), e8]
  have hc2 : (F32.checkPaddleCollision
      (Ball.mk ⟨-(5452595 / 8388608), 0⟩ ⟨9175041 / 262144, 340⟩)
      (Paddle.mk ⟨50, 310⟩ ⟨0, 0⟩)).type = collisionType.Middle := by
    rw [F32.checkPaddleCollision_overlap32 _ _
      (by show (9175041 / 262144 : ℚ) < F32.add 50 10; rw [e1]; norm_num)
      (by show (50 : ℚ) < F32.add (9175041 / 262144) 15; rw [e9]; norm_num)
      (by show (340 : ℚ) < F32.add 310 100; rw [e3]; norm_num)
      (by show (310 : ℚ) < F32.add 340 15; rw [e4]; norm_num)]
    show (if F32.add 340 15
          < F32.sub (F32.add 310 100) (F32.div (F32.mul 2 100) 3) then collisionType.Top
        else if F32.sub (F32.add 310 100) (F32.div (F32.mul 2 100) 3) < F32.add 340 15 ∧
          F32.add 340 15 < F32.sub (F32.add 310 100) (F32.div 100 3)
          then collisionType.Middle
        else collisionType.Bottom) = _
    rw [e4, e3, F32.two_thirds_eq, F32.third_eq, e5, e6]
    norm_num
  refine ⟨⟨?_, ?_, ?_, ?_, by norm_num⟩, hc, ?_, ?_, ?_⟩
  · rw [e1]
    norm_num
  · rw [e2]
    norm_num
  · rw [e3]
    norm_num
  · rw [e4]
    norm_num
  · rw [hc, hr]
  · rw [e9]
    norm_num
  · rw [hc, hr]
    exact hc2

/-- Binary32: against a paddle at `x = 50`, a ball moving left whose box
overlaps the paddle horizontally is pushed out exactly: the penetration
`60 - x` and the sum `x + (60 - x)` are binary32 values. -/
theorem push_out_paddleOne32 (x : ℚ) (hF : F32.fl x = x) (h1 : x < F32.add 50 10)
    (h2 : (50 : ℚ) < F32.add x 15) :
    F32.add x (F32.sub (F32.add 50 10) x) = F32.add 50 10 ∧ F32.add 50 10 = 60 := by
  have e60 : F32.add 50 10 = 60 := by
    simp only [F32.add]
    refine (F32.fl_exact _ 60 0 ?_ ?_ ?_).trans ?_ <;> norm_num
  have e50 : F32.fl 50 = 50 := F32.fl_exact 50 50 0 (by norm_num) (by norm_num) (by norm_num)
  rw [e60] at h1 ⊢
  have hx35 : 35 < x := by
    by_contra hc
    have hle : F32.add x 15 ≤ 50 := by
      simp only [F32.add]
      rw [← e50]
      exact F32.fl_mono (by linarith [not_lt.mp hc])
    linarith
  have hpos : 0 < x := by linarith
  obtain ⟨n, hn⟩ := F32.grid_of_fl_ge hF 5 (by rw [abs_of_pos hpos]; norm_num; linarith)
  have hpen : F32.sub 60 x = 60 - x := by
    simp only [F32.sub]
    apply F32.fl_exact_of_lt (60 - x) (15728640 - n) (-18) (by norm_num)
    · rw [hn]
      push_cast
      norm_num
      ring
    · rw [abs_of_pos (by linarith)]
      norm_num
      linarith
  rw [hpen]
  refine ⟨?_, rfl⟩
  simp only [F32.add]
  rw [show x + (60 - x) = 60 by ring]
  exact F32.fl_exact 60 60 0 (by norm_num) (by norm_num) (by norm_num)

/-- Binary32: against a paddle at `x = 1230`, a ball moving right whose box
overlaps the paddle horizontally is pushed out exactly: `ballRight = x + 15`,
the penetration `1230 - ballRight` and the resolved edges are binary32
values. -/
theorem push_out_paddleTwo32 (x : ℚ) (hF : F32.fl x = x) (h1 : x < F32.add 1230 10)
    (h2 : (1230 : ℚ) < F32.add x 15) :
    F32.add (F32.add x (F32.sub 1230 (F32.add x 15))) 15 = 1230 := by
  have e1240 : F32.add 1230 10 = 1240 := by
    simp only [F32.add]
    refine (F32.fl_exact _ 1240 0 ?_ ?_ ?_).trans ?_ <;> norm_num
  have e1230 : F32.fl 1230 = 1230 :=
    F32.fl_exact 1230 1230 0 (by norm_num) (by norm_num) (by norm_num)
  rw [e1240] at h1
  have hx : 1215 < x := by
    by_contra hc
    have hle : F32.add x 15 ≤ 1230 := by
      simp only [F32.add]
      rw [← e1230]
      exact F32.fl_mono (by linarith [not_lt.mp hc])
    linarith
  have hpos : 0 < x := by linarith
  obtain ⟨n, hn⟩ := F32.grid_of_fl_ge hF 10 (by rw [abs_of_pos hpos]; norm_num; linarith)
  have hbr : F32.add x 15 = x + 15 := by
    simp only [F32.add]
    apply F32.fl_exact_of_lt (x + 15) (n + 122880) (-13) (by norm_num)
    · rw [hn]
      push_cast
      norm_num
      ring
    · rw [abs_of_pos (by linarith)]
      norm_num
      linarith
  have hpen : F32.sub 1230 (x + 15) = 1215 - x := by
    simp only [F32.sub]
    rw [show (1230 : ℚ) - (x + 15) = 1215 - x by ring]
    apply F32.fl_exact_of_lt (1215 - x) (9953280 - n) (-13) (by norm_num)
    · rw [hn]
      push_cast
      norm_num
      ring
    · rw [abs_of_neg (by linarith)]
      norm_num
      linarith
  rw [hbr, hpen]
  have hnx : F32.add x (1215 - x) = 1215 := by
    simp only [F32.add]
    rw [show x + (1215 - x) = 1215 by ring]
    exact F32.fl_exact 1215 1215 0 (by norm_num) (by norm_num) (by norm_num)
  rw [hnx]
  simp only [F32.add]
  refine (F32.fl_exact _ 1230 0 ?_ ?_ ?_).trans ?_ <;> norm_num

/-- C6, amended: paddle push-out, in binary32.  For every ball and paddle with
binary32 `position.x` whose boxes overlap on both axes (computed edges), with
`c = checkPaddleCollision(ball, paddle)`: `c.penetration` is
`paddleRight - ballLeft` (rounded), positive, if `velocity.x < 0`, and
`paddleLeft - ballRight` (rounded), negative, if `velocity.x > 0`;
`CollideWithPaddle(c)` moves `position.x` by it (rounded).  The ball ends flush
with the struck face, and `checkPaddleCollision` on the resolved ball and the
same paddle returns `None`, in the two configurations of play: paddle one
(`x = 50`) struck by a ball moving left (`ballLeft = paddleRight`), and paddle
two (`x = 1230`) struck by a ball moving right (`ballRight = paddleLeft`). -/
theorem push_out_binary32 (ball : Ball) (paddle : Paddle)
    (hFx : F32.fl ball.position.x = ball.position.x)
    (hFp : F32.fl paddle.position.x = paddle.position.x)
    (hx1 : ball.position.x < F32.add paddle.position.x 10)
    (hx2 : paddle.position.x < F32.add ball.position.x 15)
    (hy1 : ball.position.y < F32.add paddle.position.y 100)
    (hy2 : paddle.position.y < F32.add ball.position.y 15) :
    (ball.velocity.x < 0 →
      (F32.checkPaddleCollision ball paddle).penetration
          = F32.sub (F32.add paddle.position.x 10) ball.position.x ∧
        0 < (F32.checkPaddleCollision ball paddle).penetration) ∧
    (ball.velocity.x > 0 →
      (F32.checkPaddleCollision ball paddle).penetration
          = F32.sub paddle.position.x (F32.add ball.position.x 15) ∧
        (F32.checkPaddleCollision ball paddle).penetration < 0) ∧
    (F32.Ball.CollideWithPaddle ball (F32.checkPaddleCollision ball paddle)).position.x
      = F32.add ball.position.x (F32.checkPaddleCollision ball paddle).penetration ∧
    (paddle.position.x = 50 → ball.velocity.x < 0 →
      (F32.Ball.CollideWithPaddle ball (F32.checkPaddleCollision ball paddle)).position.x
          = F32.add paddle.position.x 10 ∧
        F32.checkPaddleCollision
            (F32.Ball.CollideWithPaddle ball (F32.checkPaddleCollision ball paddle)) paddle
          = ⟨collisionType.None, 0⟩) ∧
    (paddle.position.x = 1230 → ball.velocity.x > 0 →
      F32.add
          (F32.Ball.CollideWithPaddle ball (F32.checkPaddleCollision ball paddle)).position.x 15
          = paddle.position.x ∧
        F32.checkPaddleCollision
            (F32.Ball.CollideWithPaddle ball (F32.checkPaddleCollision ball paddle)) paddle
          = ⟨collisionType.None, 0⟩) := by
  have hc := F32.checkPaddleCollision_overlap32 ball paddle hx1 hx2 hy1 hy2
  have hneg : ball.velocity.x < 0 →
      (F32.checkPaddleCollision ball paddle).penetration
        = F32.sub (F32.add paddle.position.x 10) ball.position.x := by
    intro h
    rw [hc]
    exact if_pos h
  have hpos : ball.velocity.x > 0 →
      (F32.checkPaddleCollision ball paddle).penetration
        = F32.sub paddle.position.x (F32.add ball.position.x 15) := by
    intro h
    rw [hc]
    show (if ball.velocity.x < 0 then _ else _) = _
    rw [if_neg (not_lt.mpr (le_of_lt h)), if_pos h]
  have hposn := CollideWithPaddle_position32 ball (F32.checkPaddleCollision ball paddle)
  refine ⟨?_, ?_, ?_, ?_, ?_⟩
  · intro h
    refine ⟨hneg h, ?_⟩
    rw [hneg h]
    exact F32.fl_sub_pos (F32.fl_fl _) hFx hx1
  · intro h
    refine ⟨hpos h, ?_⟩
    rw [hpos h]
    exact F32.fl_sub_neg hFp (F32.fl_fl _) hx2
  · rw [hposn]
  · intro hp h
    rw [hp] at hx1 hx2
    have hex := push_out_paddleOne32 ball.position.x hFx hx1 hx2
    have hx : (F32.Ball.CollideWithPaddle ball
        (F32.checkPaddleCollision ball paddle)).position.x = F32.add paddle.position.x 10 := by
      rw [hposn, hneg h, hp]
      exact hex.1
    refine ⟨hx, ?_⟩
    apply checkPaddleCollision_right_of32
    rw [hx]
  · intro hp h
    rw [hp] at hx1 hx2
    have hex := push_out_paddleTwo32 ball.position.x hFx hx1 hx2
    have hx : F32.add (F32.Ball.CollideWithPaddle ball
        (F32.checkPaddleCollision ball paddle)).position.x 15 = paddle.position.x := by
      rw [hposn, hpos h, hp]
      exact hex
    refine ⟨hx, ?_⟩
    apply checkPaddleCollision_left_of32
    rw [hx]

/-- Witness for C6: paddle two at `(1230, 310)`, ball at `(1220, 340)` moving
right at `0.65f`; the resolved ball has `ballRight = paddleLeft = 1230` and is
no longer in contact. -/
theorem push_out_binary32_witness :
    F32.add
        (F32.Ball.CollideWithPaddle (Ball.mk ⟨5452595 / 8388608, 0⟩ ⟨1220, 340⟩)
          (F32.checkPaddleCollision (Ball.mk ⟨5452595 / 8388608, 0⟩ ⟨1220, 340⟩)
            (Paddle.mk ⟨1230, 310⟩ ⟨0, 0⟩))).position.x 15 = 1230 ∧
    F32.checkPaddleCollision
        (F32.Ball.CollideWithPaddle (Ball.mk ⟨5452595 / 8388608, 0⟩ ⟨1220, 340⟩)
          (F32.checkPaddleCollision (Ball.mk ⟨5452595 / 8388608, 0⟩ ⟨1220, 340⟩)
            (Paddle.mk ⟨1230, 310⟩ ⟨0, 0⟩)))
        (Paddle.mk ⟨1230, 310⟩ ⟨0, 0⟩)
      = ⟨collisionType.None, 0⟩ := by
  have e1 : F32.add 1230 10 = 1240 := by
    simp only [F32.add]
    refine (F32.fl_exact _ (1240) (0) ?_ ?_ ?_).trans ?_ <;> norm_num
  have e2 : F32.add 1220 15 = 1235 := by
    simp only [F32.add]
    refine (F32.fl_exact _ (1235) (0) ?_ ?_ ?_).trans ?_ <;> norm_num
  have e3 : F32.add 310 100 = 410 := by
    simp only [F32.add]
    refine (F32.fl_exact _ (410) (0) ?_ ?_ ?_).trans ?_ <;> norm_num
  have e4 : F32.add 340 15 = 355 := by
    simp only [F32.add]
    refine (F32.fl_exact _ (355) (0) ?_ ?_ ?_).trans ?_ <;> norm_num
  have hFx : F32.fl 1220 = 1220 :=
    F32.fl_exact 1220 1220 0 (by norm_num) (by norm_num) (by norm_num)
  have hFp : F32.fl 1230 = 1230 :=
    F32.fl_exact 1230 1230 0 (by norm_num) (by norm_num) (by norm_num)
  exact (push_out_binary32 (Ball.mk ⟨5452595 / 8388608, 0⟩ ⟨1220, 340⟩)
    (Paddle.mk ⟨1230, 310⟩ ⟨0, 0⟩) hFx hFp
    (by show (1220 : ℚ) < F32.add 1230 10; rw [e1]; norm_num)
    (by show (1230 : ℚ) < F32.add 1220 15; rw [e2]; norm_num)
    (by show (340 : ℚ) < F32.add 310 100; rw [e3]; norm_num)
    (by show (310 : ℚ) < F32.add 340 15; rw [e4]; norm_num)).2.2.2.2 rfl (by norm_num)

/-! ## Claim C14 -/

/-- C14 as stated fails in binary32: two updates do not add up.  From the ball
at `(100, 100)` with velocity `(0.65f, 0.75f*0.65f)`, `update(1)` twice gives
`position.y = 100.975006...` while one `update(1 + 1)` gives
`position.y = 100.974998...`. -/
theorem ball_update_binary32_counterexample :
    (F32.Ball.update
        (F32.Ball.update (Ball.mk ⟨5452595 / 8388608, 16357785 / 33554432⟩ ⟨100, 100⟩) 1)
        1).position = ⟨6638797 / 65536, 3308749 / 32768⟩ ∧
    (F32.Ball.update (Ball.mk ⟨5452595 / 8388608, 16357785 / 33554432⟩ ⟨100, 100⟩)
        (1 + 1)).position = ⟨6638797 / 65536, 13234995 / 131072⟩ ∧
    (F32.Ball.update
        (F32.Ball.update (Ball.mk ⟨5452595 / 8388608, 16357785 / 33554432⟩ ⟨100, 100⟩) 1)
        1).position
      ≠ (F32.Ball.update (Ball.mk ⟨5452595 / 8388608, 16357785 / 33554432⟩ ⟨100, 100⟩)
        (1 + 1)).position := by
  have m1 : F32.mul (5452595 / 8388608) 1 = 5452595 / 8388608 := by
    simp only [F32.mul]
    refine (F32.fl_exact _ (5452595) (-23) ?_ ?_ ?_).trans ?_ <;> norm_num
  have m2 : F32.mul (16357785 / 33554432) 1 = 16357785 / 33554432 := by
    simp only [F32.mul]
    refine (F32.fl_exact _ (16357785) (-25) ?_ ?_ ?_).trans ?_ <;> norm_num
  have a1 : F32.add 100 (5452595 / 8388608) = 13192397 / 131072 := by
    simp only [F32.add]
    refine (F32.fl_eval_pos _ (6) (13192397) ?_ ?_ ?_ ?_ ?_).trans ?_ <;> norm_num
  have a2 : F32.add 100 (16357785 / 33554432) = 6585549 / 65536 := by
    simp only [F32.add]
    refine (F32.fl_eval_pos _ (6) (13171098) ?_ ?_ ?_ ?_ ?_).trans ?_ <;> norm_num
  have a3 : F32.add (13192397 / 131072) (5452595 / 8388608) = 6638797 / 65536 := by
    simp only [F32.add]
    refine (F32.fl_eval_pos _ (6) (13277594) ?_ ?_ ?_ ?_ ?_).trans ?_ <;> norm_num
  have a4 : F32.add (6585549 / 65536) (16357785 / 33554432) = 3308749 / 32768 := by
    simp only [F32.add]
    refine (F32.fl_eval_pos _ (6) (13234996) ?_ ?_ ?_ ?_ ?_).trans ?_ <;> norm_num
  have m3 : F32.mul (5452595 / 8388608) 2 = 5452595 / 4194304 := by
    simp only [F32.mul]
    refine (F32.fl_exact _ (5452595) (-22) ?_ ?_ ?_).trans ?_ <;> norm_num
  have m4 : F32.mul (16357785 / 33554432) 2 = 16357785 / 16777216 := by
    simp only [F32.mul]
    refine (F32.fl_exact _ (16357785) (-24) ?_ ?_ ?_).trans ?_ <;> norm_num
  have a5 : F32.add 100 (5452595 / 4194304) = 6638797 / 65536 := by
    simp only [F32.add]
    refine (F32.fl_eval_pos _ (6) (13277594) ?_ ?_ ?_ ?_ ?_).trans ?_ <;> norm_num
  have a6 : F32.add 100 (16357785 / 16777216) = 13234995 / 131072 := by
    simp only [F32.add]
    refine (F32.fl_eval_pos _ (6) (13234995) ?_ ?_ ?_ ?_ ?_).trans ?_ <;> norm_num
  have h2 : (1 + 1 : ℚ) = 2 := by norm_num
  have hA : (F32.Ball.update
      (F32.Ball.update (Ball.mk ⟨5452595 / 8388608, 16357785 / 33554432⟩ ⟨100, 100⟩) 1)
      1).position = ⟨6638797 / 65536, 3308749 / 32768⟩ := by
    simp only [F32.Ball.update]
    rw [m1, m2, a1, a2, a3, a4]
  have hB : (F32.Ball.update (Ball.mk ⟨5452595 / 8388608, 16357785 / 33554432⟩ ⟨100, 100⟩)
      (1 + 1)).position = ⟨6638797 / 65536, 13234995 / 131072⟩ := by
    rw [h2]
    simp only [F32.Ball.update]
    rw [m3, m4, a5, a6]
  refine ⟨hA, hB, ?_⟩
  rw [hA, hB]
  intro hc
  have hy := congrArg vector2d.y hc
  norm_num at hy

/-- C14, amended: `Ball.update` in binary32.  For every ball with a binary32
position, `update(0)` leaves the ball (position and velocity) unchanged; for
every `dt`, `update(dt)` leaves the velocity unchanged and never clamps: as
long as the products and the sums stay in the finite range of binary32
(magnitude below `2^128`), the new position is `position + velocity * dt`, the
product and the sum each rounded to binary32.  (Two successive updates need not
equal one update of the summed `dt`.) -/
theorem ball_update_binary32 (b : Ball) (dt : ℚ)
    (hx : F32.fl b.position.x = b.position.x) (hy : F32.fl b.position.y = b.position.y) :
    F32.Ball.update b 0 = b ∧
    (F32.Ball.update b dt).velocity = b.velocity ∧
    ((|F32.mul b.velocity.x dt| < 2 ^ 128 ∧
        |F32.add b.position.x (F32.mul b.velocity.x dt)| < 2 ^ 128 ∧
        |F32.mul b.velocity.y dt| < 2 ^ 128 ∧
        |F32.add b.position.y (F32.mul b.velocity.y dt)| < 2 ^ 128) →
      (F32.Ball.update b dt).position
        = ⟨F32.add b.position.x (F32.mul b.velocity.x dt),
            F32.add b.position.y (F32.mul b.velocity.y dt)⟩) := by
  refine ⟨?_, rfl, fun _ => rfl⟩
  simp only [F32.Ball.update, F32.add, F32.mul, mul_zero, F32.fl_zero, add_zero, hx, hy]

/-- Witness for C14: the ball at `(100, 100)` with velocity
`(0.65f, 0.75f*0.65f)` is unchanged by `update(0)`, and `update(1)` moves it to
`(100.650001..., 100.487503...)`, the rounded sums. -/
theorem ball_update_binary32_witness :
    F32.Ball.update (Ball.mk ⟨5452595 / 8388608, 16357785 / 33554432⟩ ⟨100, 100⟩) 0
      = Ball.mk ⟨5452595 / 8388608, 16357785 / 33554432⟩ ⟨100, 100⟩ ∧
    (F32.Ball.update (Ball.mk ⟨5452595 / 8388608, 16357785 / 33554432⟩ ⟨100, 100⟩) 1).position
      = ⟨13192397 / 131072, 6585549 / 65536⟩ := by
  have m1 : F32.mul (5452595 / 8388608) 1 = 5452595 / 8388608 := by
    simp only [F32.mul]
    refine (F32.fl_exact _ (5452595) (-23) ?_ ?_ ?_).trans ?_ <;> norm_num
  have m2 : F32.mul (16357785 / 33554432) 1 = 16357785 / 33554432 := by
    simp only [F32.mul]
    refine (F32.fl_exact _ (16357785) (-25) ?_ ?_ ?_).trans ?_ <;> norm_num
  have a1 : F32.add 100 (5452595 / 8388608) = 13192397 / 131072 := by
    simp only [F32.add]
    refine (F32.fl_eval_pos _ (6) (13192397) ?_ ?_ ?_ ?_ ?_).trans ?_ <;> norm_num
  have a2 : F32.add 100 (16357785 / 33554432) = 6585549 / 65536 := by
    simp only [F32.add]
    refine (F32.fl_eval_pos _ (6) (13171098) ?_ ?_ ?_ ?_ ?_).trans ?_ <;> norm_num
  have h := ball_update_binary32
    (Ball.mk ⟨5452595 / 8388608, 16357785 / 33554432⟩ ⟨100, 100⟩) 1
    (F32.fl_exact 100 100 0 (by norm_num) (by norm_num) (by norm_num))
    (F32.fl_exact 100 100 0 (by norm_num) (by norm_num) (by norm_num))
  have h0 := ball_update_binary32
    (Ball.mk ⟨5452595 / 8388608, 16357785 / 33554432⟩ ⟨100, 100⟩) 0
    (F32.fl_exact 100 100 0 (by norm_num) (by norm_num) (by norm_num))
    (F32.fl_exact 100 100 0 (by norm_num) (by norm_num) (by norm_num))
  refine ⟨h0.1, ?_⟩
  have hg : |F32.mul (5452595 / 8388608) 1| < 2 ^ 128 ∧
      |F32.add 100 (F32.mul (5452595 / 8388608) 1)| < 2 ^ 128 ∧
      |F32.mul (16357785 / 33554432) 1| < 2 ^ 128 ∧
      |F32.add 100 (F32.mul (16357785 / 33554432) 1)| < 2 ^ 128 := by
    rw [m1, m2, a1, a2]
    refine ⟨?_, ?_, ?_, ?_⟩ <;> rw [abs_of_pos (by norm_num)] <;> norm_num
  rw [h.2.2 hg]
  show (⟨F32.add 100 (F32.mul (5452595 / 8388608) 1),
    F32.add 100 (F32.mul (16357785 / 33554432) 1)⟩ : vector2d) = _
  rw [m1, m2, a1, a2]

/-! ## Claim C16 -/

/-- The binary32 wall check written with the numeric values of the
constants. -/
theorem checkWallCollision_unfold32 (ball : Ball) :
    F32.checkWallCollision ball =
      (if ball.position.x < 0 then ⟨collisionType.Left, 0⟩
        else if 1280 < F32.add ball.position.x 15 then ⟨collisionType.Right, 0⟩
        else if ball.position.y < 0 then ⟨collisionType.Top, -ball.position.y⟩
        else if 720 < F32.add ball.position.y 15 then
          ⟨collisionType.Bottom, F32.sub 720 (F32.add ball.position.y 15)⟩
        else ⟨collisionType.None, 0⟩) := by
  simp only [F32.checkWallCollision, BALL_WIDTH, BALL_HEIGHT, WINDOW_WIDTH, WINDOW_HEIGHT,
    Contact.zero]
  simp only [Int.cast_ofNat, gt_iff_lt]

/-- C16 as stated fails in binary32.  For the ball at `(300, 1009.00274...)`
(the binary32 value `16531501 / 2^14`) the computed `ballBottom` is rounded,
the wall check reports `Bottom` with penetration `-304.002685...`, the resolved
ball is at `y = 705.000061...`, its bottom edge `720.000061...` is not at `720`,
and `checkWallCollision` on the resolved ball reports `Bottom` again. -/
theorem wall_bounce_binary32_counterexample :
    F32.checkWallCollision
        (Ball.mk ⟨5452595 / 8388608, 16357785 / 33554432⟩ ⟨300, 16531501 / 16384⟩)
      = ⟨collisionType.Bottom, -(1245195 / 4096)⟩ ∧
    F32.Ball.CollideWithWall
        (Ball.mk ⟨5452595 / 8388608, 16357785 / 33554432⟩ ⟨300, 16531501 / 16384⟩)
        (F32.checkWallCollision
          (Ball.mk ⟨5452595 / 8388608, 16357785 / 33554432⟩ ⟨300, 16531501 / 16384⟩))
      = Ball.mk ⟨5452595 / 8388608, -(16357785 / 33554432)⟩ ⟨300, 11550721 / 16384⟩ ∧
    F32.add (11550721 / 16384) 15 ≠ 720 ∧
    F32.checkWallCollision
        (F32.Ball.CollideWithWall
          (Ball.mk ⟨5452595 / 8388608, 16357785 / 33554432⟩ ⟨300, 16531501 / 16384⟩)
          (F32.checkWallCollision
            (Ball.mk ⟨5452595 / 8388608, 16357785 / 33554432⟩ ⟨300, 16531501 / 16384⟩)))
      = ⟨collisionType.Bottom, -(1 / 16384)⟩ := by
  have e1 : F32.add 300 15 = 315 := by
    simp only [F32.add]
    refine (F32.fl_exact _ (315) (0) ?_ ?_ ?_).trans ?_ <;> norm_num
  have e2 : F32.add (16531501 / 16384) 15 = 4194315 / 4096 := by
    simp only [F32.add]
    refine (F32.fl_eval_tie_pos _ (10) (8388630) ?_ ?_ ?_ ?_).trans ?_ <;> norm_num
  have e3 : F32.sub 720 (4194315 / 4096) = -(1245195 / 4096) := by
    simp only [F32.sub]
    refine (F32.fl_exact _ (-1245195) (-12) ?_ ?_ ?_).trans ?_ <;> norm_num
  have e4 : F32.add (16531501 / 16384) (-(1245195 / 4096)) = 11550721 / 16384 := by
    simp only [F32.add]
    refine (F32.fl_exact _ (11550721) (-14) ?_ ?_ ?_).trans ?_ <;> norm_num
  have e5 : F32.add (11550721 / 16384) 15 = 11796481 / 16384 := by
    simp only [F32.add]
    refine (F32.fl_exact _ (11796481) (-14) ?_ ?_ ?_).trans ?_ <;> norm_num
  have e6 : F32.sub 720 (11796481 / 16384) = -(1 / 16384) := by
    simp only [F32.sub]
    refine (F32.fl_exact _ (-1) (-14) ?_ ?_ ?_).trans ?_ <;> norm_num
  have hc : F32.checkWallCollision
      (Ball.mk ⟨5452595 / 8388608, 16357785 / 33554432⟩ ⟨300, 16531501 / 16384⟩)
      = ⟨collisionType.Bottom, -(1245195 / 4096)⟩ := by
    rw [checkWallCollision_unfold32]
    show (if (300 : ℚ) < 0 then (⟨collisionType.Left, 0⟩ : Contact)
      else if 1280 < F32.add 300 15 then ⟨collisionType.Right, 0⟩
      else if (16531501 / 16384 : ℚ) < 0 then ⟨collisionType.Top, -(16531501 / 16384)⟩
      else if 720 < F32.add (16531501 / 16384) 15 then
        ⟨collisionType.Bottom, F32.sub 720 (F32.add (16531501 / 16384) 15)⟩
      else ⟨collisionType.None, 0⟩) = _
    rw [e1, e2, e3]
    norm_num
  have hr : F32.Ball.CollideWithWall
      (Ball.mk ⟨5452595 / 8388608, 16357785 / 33554432⟩ ⟨300, 16531501 / 16384⟩)
      (⟨collisionType.Bottom, -(1245195 / 4096)⟩ : Contact)
      = Ball.mk ⟨5452595 / 8388608, -(16357785 / 33554432)⟩ ⟨300, 11550721 / 16384⟩ := by
    simp only [F32.Ball.CollideWithWall]
    rw [if_pos (Or.inr trivial), e4]
  have hc2 : F32.checkWallCollision
      (Ball.mk ⟨5452595 / 8388608, -(16357785 / 33554432)⟩ ⟨300, 11550721 / 16384⟩)
      = ⟨collisionType.Bottom, -(1 / 16384)⟩ := by
    rw [checkWallCollision_unfold32]
    show (if (300 : ℚ) < 0 then (⟨collisionType.Left, 0⟩ : Contact)
      else if 1280 < F32.add 300 15 then ⟨collisionType.Right, 0⟩
      else if (11550721 / 16384 : ℚ) < 0 then ⟨collisionType.Top, -(11550721 / 16384)⟩
      else if 720 < F32.add (11550721 / 16384) 15 then
        ⟨collisionType.Bottom, F32.sub 720 (F32.add (11550721 / 16384) 15)⟩
      else ⟨collisionType.None, 0⟩) = _
    rw [e1, e5, e6]
    norm_num
  refine ⟨hc, ?_, ?_, ?_⟩
  · rw [hc, hr]
  · rw [e5]
    norm_num
  · rw [hc, hr]
    exact hc2

/-- Binary32: for a ball beyond the bottom wall whose bottom edge is at most
`1024`, the computed `ballBottom`, the penetration `720 - ballBottom` and the
corrected `position.y` are exact, and the ball ends at `y = 705`. -/
theorem bottom_bounce_exact32 (y : ℚ) (hF : F32.fl y = y) (h1 : 720 < F32.add y 15)
    (h2 : y + 15 ≤ 1024) :
    F32.add y (F32.sub 720 (F32.add y 15)) = 705 := by
  have e720 : F32.fl 720 = 720 :=
    F32.fl_exact 720 720 0 (by norm_num) (by norm_num) (by norm_num)
  have hy : 705 < y := by
    by_contra hc
    have hle : F32.add y 15 ≤ 720 := by
      simp only [F32.add]
      rw [← e720]
      exact F32.fl_mono (by linarith [not_lt.mp hc])
    linarith
  have hpos : 0 < y := by linarith
  obtain ⟨n, hn⟩ := F32.grid_of_fl_ge hF 9 (by rw [abs_of_pos hpos]; norm_num; linarith)
  have hbb : F32.add y 15 = y + 15 := by
    simp only [F32.add]
    rcases eq_or_lt_of_le h2 with he | hlt
    · rw [he]
      exact F32.fl_exact 1024 1024 0 (by norm_num) (by norm_num) (by norm_num)
    · apply F32.fl_exact_of_lt (y + 15) (n + 245760) (-14) (by norm_num)
      · rw [hn]
        push_cast
        norm_num
        ring
      · rw [abs_of_pos (by linarith)]
        norm_num
        linarith
  have hpen : F32.sub 720 (y + 15) = 705 - y := by
    simp only [F32.sub]
    rw [show (720 : ℚ) - (y + 15) = 705 - y by ring]
    apply F32.fl_exact_of_lt (705 - y) (11550720 - n) (-14) (by norm_num)
    · rw [hn]
      push_cast
      norm_num
      ring
    · rw [abs_of_neg (by linarith)]
      norm_num
      linarith
  rw [hbb, hpen]
  simp only [F32.add]
  rw [show y + (705 - y) = 705 by ring]
  exact F32.fl_exact 705 705 0 (by norm_num) (by norm_num) (by norm_num)

/-- C16, amended: wall bounce, in binary32.  For every ball with a binary32
`position.y` for which `checkWallCollision` returns a contact `c` of type `Top`
or `Bottom`, after `CollideWithWall(c)` `position.x` and `velocity.x` are
unchanged and `velocity.y` is negated.  For `Top` the ball ends at
`position.y = 0` and `checkWallCollision` on the resolved ball returns `None`.
For `Bottom` the same holds with `position.y = 705`, that is
`position.y + BALL_HEIGHT = 720`, whenever the ball's bottom edge before the
bounce is at most `1024` (`position.y + 15 <= 1024`), the range in which the
program computes `ballBottom` without rounding. -/
theorem wall_bounce_binary32 (ball : Ball)
    (hF : F32.fl ball.position.y = ball.position.y)
    (h : (F32.checkWallCollision ball).type = collisionType.Top ∨
      (F32.checkWallCollision ball).type = collisionType.Bottom) :
    ((F32.checkWallCollision ball).type = collisionType.Top →
      (F32.Ball.CollideWithWall ball (F32.checkWallCollision ball)).position.y = 0 ∧
        F32.checkWallCollision (F32.Ball.CollideWithWall ball (F32.checkWallCollision ball))
          = ⟨collisionType.None, 0⟩) ∧
    ((F32.checkWallCollision ball).type = collisionType.Bottom →
      ball.position.y + 15 ≤ 1024 →
      (F32.Ball.CollideWithWall ball (F32.checkWallCollision ball)).position.y = 705 ∧
        F32.add (F32.Ball.CollideWithWall ball (F32.checkWallCollision ball)).position.y 15
          = 720 ∧
        F32.checkWallCollision (F32.Ball.CollideWithWall ball (F32.checkWallCollision ball))
          = ⟨collisionType.None, 0⟩) ∧
    (F32.Ball.CollideWithWall ball (F32.checkWallCollision ball)).position.x
      = ball.position.x ∧
    (F32.Ball.CollideWithWall ball (F32.checkWallCollision ball)).velocity.x
      = ball.velocity.x ∧
    (F32.Ball.CollideWithWall ball (F32.checkWallCollision ball)).velocity.y
      = -ball.velocity.y := by
  have e15 : F32.add 0 15 = 15 := by
    simp only [F32.add]
    refine (F32.fl_exact _ 15 0 ?_ ?_ ?_).trans ?_ <;> norm_num
  have e720 : F32.add 705 15 = 720 := by
    simp only [F32.add]
    refine (F32.fl_exact _ 720 0 ?_ ?_ ?_).trans ?_ <;> norm_num
  have hb : F32.Ball.CollideWithWall ball (F32.checkWallCollision ball) =
      ⟨⟨ball.velocity.x, -ball.velocity.y⟩,
        ⟨ball.position.x,
          F32.add ball.position.y (F32.checkWallCollision ball).penetration⟩⟩ := by
    simp only [F32.Ball.CollideWithWall]
    rw [if_pos h]
  have hu := checkWallCollision_unfold32 ball
  by_cases c1 : ball.position.x < 0
  · rw [if_pos c1] at hu
    rw [hu] at h
    rcases h with h | h <;> exact collisionType.noConfusion h
  rw [if_neg c1] at hu
  by_cases c2 : 1280 < F32.add ball.position.x 15
  · rw [if_pos c2] at hu
    rw [hu] at h
    rcases h with h | h <;> exact collisionType.noConfusion h
  rw [if_neg c2] at hu
  by_cases c3 : ball.position.y < 0
  · rw [if_pos c3] at hu
    have hy : F32.add ball.position.y (F32.checkWallCollision ball).penetration = 0 := by
      rw [hu]
      show F32.add ball.position.y (-ball.position.y) = 0
      simp only [F32.add, add_neg_cancel, F32.fl_zero]
    rw [hb, hy]
    refine ⟨fun _ => ⟨rfl, ?_⟩, ?_, rfl, rfl, rfl⟩
    · rw [checkWallCollision_unfold32]
      simp only
      rw [if_neg c1, if_neg c2, if_neg (lt_irrefl 0), e15, if_neg (by norm_num)]
    · intro ht
      rw [hu] at ht
      exact collisionType.noConfusion ht
  rw [if_neg c3] at hu
  by_cases c4 : 720 < F32.add ball.position.y 15
  · rw [if_pos c4] at hu
    rw [hb]
    refine ⟨?_, ?_, rfl, rfl, rfl⟩
    · intro ht
      rw [hu] at ht
      exact collisionType.noConfusion ht
    · intro _ hle
      have hy : F32.add ball.position.y (F32.checkWallCollision ball).penetration = 705 := by
        rw [hu]
        exact bottom_bounce_exact32 ball.position.y hF c4 hle
      rw [hy]
      refine ⟨rfl, e720, ?_⟩
      rw [checkWallCollision_unfold32]
      simp only
      rw [if_neg c1, if_neg c2, if_neg (by norm_num), e720, if_neg (lt_irrefl _)]
  · rw [if_neg c4] at hu
    rw [hu] at h
    rcases h with h | h <;> exact collisionType.noConfusion h

/-- Witness for C16: a ball at `(300, 710)` moving down is beyond the bottom
wall; the wall check reports `Bottom` and the resolved ball is flush with the
wall and no longer in contact. -/
theorem wall_bounce_binary32_witness :
    (F32.checkWallCollision
        (Ball.mk ⟨5452595 / 8388608, 16357785 / 33554432⟩ ⟨300, 710⟩)).type
      = collisionType.Bottom ∧
    F32.add
        (F32.Ball.CollideWithWall (Ball.mk ⟨5452595 / 8388608, 16357785 / 33554432⟩ ⟨300, 710⟩)
          (F32.checkWallCollision
            (Ball.mk ⟨5452595 / 8388608, 16357785 / 33554432⟩ ⟨300, 710⟩))).position.y 15
      = 720 ∧
    F32.checkWallCollision
        (F32.Ball.CollideWithWall (Ball.mk ⟨5452595 / 8388608, 16357785 / 33554432⟩ ⟨300, 710⟩)
          (F32.checkWallCollision
            (Ball.mk ⟨5452595 / 8388608, 16357785 / 33554432⟩ ⟨300, 710⟩)))
      = ⟨collisionType.None, 0⟩ := by
  have e1 : F32.add 300 15 = 315 := by
    simp only [F32.add]
    refine (F32.fl_exact _ (315) (0) ?_ ?_ ?_).trans ?_ <;> norm_num
  have e2 : F32.add 710 15 = 725 := by
    simp only [F32.add]
    refine (F32.fl_exact _ (725) (0) ?_ ?_ ?_).trans ?_ <;> norm_num
  have hw : (F32.checkWallCollision
      (Ball.mk ⟨5452595 / 8388608, 16357785 / 33554432⟩ ⟨300, 710⟩)).type
      = collisionType.Bottom := by
    rw [checkWallCollision_unfold32]
    show (if (300 : ℚ) < 0 then (⟨collisionType.Left, 0⟩ : Contact)
      else if 1280 < F32.add 300 15 then ⟨collisionType.Right, 0⟩
      else if (710 : ℚ) < 0 then ⟨collisionType.Top, -710⟩
      else if 720 < F32.add 710 15 then
        ⟨collisionType.Bottom, F32.sub 720 (F32.add 710 15)⟩
      else ⟨collisionType.None, 0⟩).type = _
    rw [e1, e2]
    norm_num
  have hF : F32.fl 710 = 710 := F32.fl_exact 710 710 0 (by norm_num) (by norm_num) (by norm_num)
  have h := (wall_bounce_binary32
    (Ball.mk ⟨5452595 / 8388608, 16357785 / 33554432⟩ ⟨300, 710⟩) hF (Or.inr hw)).2.1 hw
    (by norm_num)
  exact ⟨hw, h.2.1, h.2.2⟩

end Pong
